import Mathlib

/-!
# Verification of the weblinkauto dealer-storefront server

Shallow embedding of the request handlers, billing-webhook reconciliation,
auth service and data-access layer of the repository (an Express server over
Supabase, with an earlier Airtable revision of some routes), together with
proofs of the testable properties stated in its specification.

Conventions used throughout the embedding:
* JS strings are Lean `String`s; absent / `undefined` request-body fields are
  `Option String` (`none` = absent).
* Byte buffers (`Buffer`) are `List Nat`, each entry `< 256` where relevant.
* Timestamps (`Date.now()`, parsed dates) are `Int` epoch milliseconds.  A
  stored `timestamptz` / ISO string is modelled by its parsed value
  (`Option Int`), `none` standing for SQL `null`, an empty string, or an
  unparseable value (JS `new Date` on such values yields `NaN`, which the
  code treats the same as absent).
* Nondeterministic inputs (random bytes, UUIDs, generated passcodes) are
  explicit parameters.
* Fallible JS code that can throw returns `Except String`.
* Fire-and-forget e-mails are recorded as a list of attempted messages;
  transport failures of the e-mail provider are not modelled.
-/

/-- `s.trim()` (computed on the character list so that concrete instances
evaluate by `decide`). -/
def jsTrim (s : String) : String :=
  ⟨((s.data.dropWhile Char.isWhitespace).reverse.dropWhile Char.isWhitespace).reverse⟩

/-- `s.toLowerCase()` (ASCII, which is all the handlers compare against). -/
def jsToLower (s : String) : String :=
  ⟨s.data.map Char.toLower⟩

/-- `cleanStr(v, max)` from `server.js` (identical copies exist in
`routes/dealer.js` and `routes/public.js`): `String(v).trim()` truncated to
`max` characters, with `null`/`undefined` mapped to `""`. -/
def cleanStr (v : Option String) (max : Nat := 500) : String :=
  match v with
  | none => ""
  | some s =>
    let t := jsTrim s
    if t.length > max then ⟨t.data.take max⟩ else t

/-- Character class `[a-zA-Z0-9_-]` used by the dealer-id validator. -/
def dealerIdChar (c : Char) : Bool :=
  (('a' ≤ c ∧ c ≤ 'z') ∨ ('A' ≤ c ∧ c ≤ 'Z') ∨ ('0' ≤ c ∧ c ≤ '9') ∨ c = '_' ∨ c = '-' : Prop)

/-- `isValidDealerId` from `server.js`: `/^[a-zA-Z0-9_-]{3,40}$/.test(dealerId)`. -/
def isValidDealerId (dealerId : String) : Bool :=
  3 ≤ dealerId.length ∧ dealerId.length ≤ 40 ∧ dealerId.data.all dealerIdChar

/-- A character admissible in either side of the e-mail regex: `[^\s@]`. -/
def emailChar (c : Char) : Bool :=
  (¬ c.isWhitespace ∧ c ≠ '@' : Prop)

/-- `true` iff the list contains a `'.'` that is neither its first nor its
last element; this is what `[^\s@]+\.[^\s@]+` requires of the domain part. -/
def hasInnerDot (cs : List Char) : Bool :=
  ((cs.dropLast).drop 1).contains '.'

/-- `isValidEmail` from `server.js`: `/^[^\s@]+@[^\s@]+\.[^\s@]+$/.test(email)`.
Since `[^\s@]` excludes `'@'`, a match forces exactly one `'@'`; the part
after it must carry a `'.'` with non-empty material on both sides. -/
def isValidEmail (email : String) : Bool :=
  match email.data.splitOn '@' with
  | [loc, dom] =>
    (loc ≠ [] ∧ loc.all emailChar ∧ dom ≠ [] ∧ dom.all emailChar ∧ hasInnerDot dom : Prop)
  | _ => false

/-- `normalizePhone` from `server.js`: clean to 40 chars, then
`replace(/[^\d+]/g, "")` keeps only decimal digits and `'+'`. -/
def normalizePhone (phone : Option String) : String :=
  ⟨(cleanStr phone 40).data.filter fun c => (c.isDigit ∨ c = '+' : Prop)⟩

/-- A JSON value as far as the handlers inspect one (for fields such as
`body.archived` that are tested with `typeof`/`=== true` or coerced). -/
inductive JsVal where
  | vNull
  | vBool (b : Bool)
  | vStr (s : String)
  | vNum (n : Int)
deriving DecidableEq, Repr

/-- `String(value || "")` for the values `toBool` can receive: `0`, `""`,
`null`/`undefined` and `false` are falsy and collapse to `""`. -/
def jsValToCoercedString : JsVal → String
  | .vNull => ""
  | .vBool b => if b then "true" else ""
  | .vStr s => s
  | .vNum n => if n = 0 then "" else toString n

/-- `toBool` from `server.js`: booleans pass through, otherwise
`String(value || "").toLowerCase()` is matched against the literal
true/false words; anything else is `undefined` (`none`).  `none` as input
stands for an absent field.  (Named `toBoolJs` because Mathlib already
exports a `toBool`.) -/
def toBoolJs (value : Option JsVal) : Option Bool :=
  match value with
  | some (.vBool b) => some b
  | v =>
    let s := jsToLower (jsValToCoercedString ((v).getD .vNull))
    if s = "true" ∨ s = "1" ∨ s = "yes" then some true
    else if s = "false" ∨ s = "0" ∨ s = "no" then some false
    else none

/-- Value of a non-empty digit string (used by the `parseInt` model). -/
def digitsVal (ds : List Char) : Nat :=
  ds.foldl (fun a c => a * 10 + (c.toNat - 48)) 0

/-- Leading digit run of `cs` interpreted as a number, `none` when `cs`
does not start with a digit. -/
def leadingNat (cs : List Char) : Option Nat :=
  let ds := cs.takeWhile Char.isDigit
  if ds.isEmpty then none else some (digitsVal ds)

/-- `parseInt(s, 10)`: skip leading whitespace, optional sign, then the
leading digit run; `none` models `NaN`. -/
def jsParseInt (s : String) : Option Int :=
  match s.data.dropWhile Char.isWhitespace with
  | '+' :: rest => (leadingNat rest).map Int.ofNat
  | '-' :: rest => (leadingNat rest).map fun n => -(n : Int)
  | rest => (leadingNat rest).map Int.ofNat

/-- `String(n).padStart(4, "0")`. -/
def padStart4 (s : String) : String :=
  if s.length ≥ 4 then s else ⟨List.replicate (4 - s.length) '0'⟩ ++ s

/-! ## Base64 and hex codecs

`Buffer.prototype.toString("base64")` and `Buffer.from(s, "base64")` as used
by the PBKDF2 storage format, and `toString("hex")` as used by the reset
tokens.  Node's base64 decoder silently skips characters outside the
alphabet (including padding `'='`) and drops a trailing lone sextet. -/

/-- The standard base64 alphabet. -/
def b64Alphabet : List Char :=
  "ABCDEFGHIJKLMNOPQRSTUVWXYZabcdefghijklmnopqrstuvwxyz0123456789+/".data

/-- Character of a sextet value. -/
def sextetChar (n : Nat) : Char :=
  b64Alphabet.getD n 'A'

/-- Sextet value of a character, `none` for characters outside the alphabet. -/
def charSextet (c : Char) : Option Nat :=
  b64Alphabet.indexOf? c

/-- Encode byte chunks of up to three bytes into base64 characters. -/
def b64EncodeChunks : List Nat → List Char
  | [] => []
  | [a] => [sextetChar (a / 4), sextetChar (a % 4 * 16), '=', '=']
  | [a, b] => [sextetChar (a / 4), sextetChar (a % 4 * 16 + b / 16), sextetChar (b % 16 * 4), '=']
  | a :: b :: c :: rest =>
    sextetChar (a / 4) :: sextetChar (a % 4 * 16 + b / 16) ::
      sextetChar (b % 16 * 4 + c / 64) :: sextetChar (c % 64) :: b64EncodeChunks rest

/-- `buf.toString("base64")`. -/
def b64Encode (bs : List Nat) : String :=
  ⟨b64EncodeChunks bs⟩

/-- Rebuild bytes from groups of sextets (a trailing single sextet is dropped,
as Node does). -/
def b64DecodeQuads : List Nat → List Nat
  | a :: b :: c :: d :: rest =>
    (a * 4 + b / 16) :: (b % 16 * 16 + c / 4) :: (c % 4 * 64 + d) :: b64DecodeQuads rest
  | [a, b] => [a * 4 + b / 16]
  | [a, b, c] => [a * 4 + b / 16, b % 16 * 16 + c / 4]
  | _ => []

/-- `Buffer.from(s, "base64")`: non-alphabet characters are skipped. -/
def b64Decode (s : String) : List Nat :=
  b64DecodeQuads (s.data.filterMap charSextet)

/-- Hex digit characters (lower case, as Node produces). -/
def hexChar (n : Nat) : Char :=
  "0123456789abcdef".data.getD n '0'

/-- `buf.toString("hex")`. -/
def hexEncode (bs : List Nat) : List Char :=
  bs.flatMap fun b => [hexChar (b / 16), hexChar (b % 16)]

theorem hexEncode_length (bs : List Nat) : (hexEncode bs).length = 2 * bs.length := by
  induction bs with
  | nil => rfl
  | cons b rest ih => simp [hexEncode, List.flatMap_cons] at ih ⊢; omega

/-! ### Base64 round trip -/

theorem charSextet_sextetChar : ∀ n < 64, charSextet (sextetChar n) = some n := by
  decide

theorem b64_roundtrip (bs : List Nat) (hb : ∀ x ∈ bs, x < 256) :
    b64Decode (b64Encode bs) = bs := by
  unfold b64Decode b64Encode
  show b64DecodeQuads ((b64EncodeChunks bs).filterMap charSextet) = bs
  induction bs using b64EncodeChunks.induct with
  | case1 => rfl
  | case2 a =>
    have ha : a < 256 := hb a (by simp)
    have h1 : a / 4 < 64 := by omega
    have h2 : a % 4 * 16 < 64 := by omega
    simp [b64EncodeChunks, List.filterMap_cons, charSextet_sextetChar _ h1,
      charSextet_sextetChar _ h2, show charSextet '=' = none from by decide,
      b64DecodeQuads]
    omega
  | case3 a b =>
    have ha : a < 256 := hb a (by simp)
    have hbb : b < 256 := hb b (by simp)
    have h1 : a / 4 < 64 := by omega
    have h2 : a % 4 * 16 + b / 16 < 64 := by omega
    have h3 : b % 16 * 4 < 64 := by omega
    simp [b64EncodeChunks, List.filterMap_cons, charSextet_sextetChar _ h1,
      charSextet_sextetChar _ h2, charSextet_sextetChar _ h3,
      show charSextet '=' = none from by decide, b64DecodeQuads]
    omega
  | case4 a b c rest ih =>
    have ha : a < 256 := hb a (by simp)
    have hbb : b < 256 := hb b (by simp)
    have hc : c < 256 := hb c (by simp)
    have h1 : a / 4 < 64 := by omega
    have h2 : a % 4 * 16 + b / 16 < 64 := by omega
    have h3 : b % 16 * 4 + c / 64 < 64 := by omega
    have h4 : c % 64 < 64 := by omega
    have ih' := ih (fun x hx => hb x (by simp [hx]))
    simp [b64EncodeChunks, List.filterMap_cons, charSextet_sextetChar _ h1,
      charSextet_sextetChar _ h2, charSextet_sextetChar _ h3,
      charSextet_sextetChar _ h4, b64DecodeQuads, ih']
    omega

/-! ## Data model

Rows of the Supabase tables `profiles`, `vehicles` and `viewing_requests`
(schema in the repository's `supabase.sql`).  `text` columns are `String`
with `""` for SQL `null` (every read site coerces null through `|| ""`,
`cleanStr` or truthiness); `timestamptz` columns are `Option Int` (parsed
epoch milliseconds); numeric columns are `Option Int` (`none` = null).
Structure defaults are the column defaults applied when an insert omits the
column. -/

structure Profile where
  dealer_id : String := ""
  name : String := ""
  status : String := "active"
  profile_email : String := ""
  whatsapp : String := ""
  logo_url : String := ""
  password : String := ""
  plan : String := ""
  trial_ends_at : Option Int := none
  stripe_customer_id : String := ""
  stripe_subscription_id : String := ""
  stripe_subscription_status : String := ""
  referral_code : String := ""
  referred_by : String := ""
  referral_credits : Int := 0
deriving DecidableEq, Repr

/-- A partial `profiles` row as passed to `upsertProfile`: `none` means the
column is absent from the payload (a JS `undefined` value, which
`JSON.stringify` drops).  `trial_ends_at` distinguishes an absent column
(outer `none`) from an explicit SQL `null` (`some none`). -/
structure ProfilePatch where
  dealer_id : String
  name : Option String := none
  status : Option String := none
  profile_email : Option String := none
  whatsapp : Option String := none
  logo_url : Option String := none
  password : Option String := none
  plan : Option String := none
  trial_ends_at : Option (Option Int) := none
  stripe_customer_id : Option String := none
  stripe_subscription_id : Option String := none
  stripe_subscription_status : Option String := none
  referral_code : Option String := none
  referred_by : Option String := none
  referral_credits : Option Int := none
deriving DecidableEq, Repr

def applyProfilePatch (p : Profile) (u : ProfilePatch) : Profile :=
  { dealer_id := u.dealer_id
    name := u.name.getD p.name
    status := u.status.getD p.status
    profile_email := u.profile_email.getD p.profile_email
    whatsapp := u.whatsapp.getD p.whatsapp
    logo_url := u.logo_url.getD p.logo_url
    password := u.password.getD p.password
    plan := u.plan.getD p.plan
    trial_ends_at := u.trial_ends_at.getD p.trial_ends_at
    stripe_customer_id := u.stripe_customer_id.getD p.stripe_customer_id
    stripe_subscription_id := u.stripe_subscription_id.getD p.stripe_subscription_id
    stripe_subscription_status := u.stripe_subscription_status.getD p.stripe_subscription_status
    referral_code := u.referral_code.getD p.referral_code
    referred_by := u.referred_by.getD p.referred_by
    referral_credits := u.referral_credits.getD p.referral_credits }

/-- Insert branch of the upsert: absent columns take the table defaults
(`status` defaults to `'active'`, the rest to null). -/
def newProfileFromPatch (u : ProfilePatch) : Profile :=
  { dealer_id := u.dealer_id
    name := u.name.getD ""
    status := u.status.getD "active"
    profile_email := u.profile_email.getD ""
    whatsapp := u.whatsapp.getD ""
    logo_url := u.logo_url.getD ""
    password := u.password.getD ""
    plan := u.plan.getD ""
    trial_ends_at := u.trial_ends_at.getD none
    stripe_customer_id := u.stripe_customer_id.getD ""
    stripe_subscription_id := u.stripe_subscription_id.getD ""
    stripe_subscription_status := u.stripe_subscription_status.getD ""
    referral_code := u.referral_code.getD ""
    referred_by := u.referred_by.getD ""
    referral_credits := u.referral_credits.getD 0 }

structure Vehicle where
  dealer_id : String := ""
  vehicle_id : String := ""
  title : String := ""
  make : String := ""
  model : String := ""
  year : Option Int := none
  vin : String := ""
  price : Option Int := none
  status : String := ""
  availability : Bool := true
  archived : Bool := false
  mileage : Option Int := none
  color : String := ""
  body_type : String := ""
  transmission : String := ""
  fuel_type : String := ""
  description : String := ""
  cloudinary_image_urls : String := ""
  cloudinary_video_url : String := ""
  hero_image_url : String := ""
  hero_video_url : String := ""
deriving DecidableEq, Repr

/-- A partial `vehicles` row (payload of `createVehicle` /
`updateVehicleByVehicleId`); `none` = column absent. -/
structure VehiclePatch where
  dealer_id : Option String := none
  vehicle_id : Option String := none
  title : Option String := none
  make : Option String := none
  model : Option String := none
  year : Option (Option Int) := none
  vin : Option String := none
  price : Option (Option Int) := none
  status : Option String := none
  availability : Option Bool := none
  archived : Option Bool := none
  mileage : Option (Option Int) := none
  color : Option String := none
  body_type : Option String := none
  transmission : Option String := none
  fuel_type : Option String := none
  description : Option String := none
  cloudinary_image_urls : Option String := none
  cloudinary_video_url : Option String := none
  hero_image_url : Option String := none
  hero_video_url : Option String := none
deriving DecidableEq, Repr

def applyVehiclePatch (v : Vehicle) (u : VehiclePatch) : Vehicle :=
  { dealer_id := u.dealer_id.getD v.dealer_id
    vehicle_id := u.vehicle_id.getD v.vehicle_id
    title := u.title.getD v.title
    make := u.make.getD v.make
    model := u.model.getD v.model
    year := u.year.getD v.year
    vin := u.vin.getD v.vin
    price := u.price.getD v.price
    status := u.status.getD v.status
    availability := u.availability.getD v.availability
    archived := u.archived.getD v.archived
    mileage := u.mileage.getD v.mileage
    color := u.color.getD v.color
    body_type := u.body_type.getD v.body_type
    transmission := u.transmission.getD v.transmission
    fuel_type := u.fuel_type.getD v.fuel_type
    description := u.description.getD v.description
    cloudinary_image_urls := u.cloudinary_image_urls.getD v.cloudinary_image_urls
    cloudinary_video_url := u.cloudinary_video_url.getD v.cloudinary_video_url
    hero_image_url := u.hero_image_url.getD v.hero_image_url
    hero_video_url := u.hero_video_url.getD v.hero_video_url }

/-- Insert branch of `createVehicle`: table defaults are `availability`
true, `archived` false, null elsewhere. -/
def newVehicleFromPatch (u : VehiclePatch) : Vehicle :=
  { dealer_id := u.dealer_id.getD ""
    vehicle_id := u.vehicle_id.getD ""
    title := u.title.getD ""
    make := u.make.getD ""
    model := u.model.getD ""
    year := u.year.getD none
    vin := u.vin.getD ""
    price := u.price.getD none
    status := u.status.getD ""
    availability := u.availability.getD true
    archived := u.archived.getD false
    mileage := u.mileage.getD none
    color := u.color.getD ""
    body_type := u.body_type.getD ""
    transmission := u.transmission.getD ""
    fuel_type := u.fuel_type.getD ""
    description := u.description.getD ""
    cloudinary_image_urls := u.cloudinary_image_urls.getD ""
    cloudinary_video_url := u.cloudinary_video_url.getD ""
    hero_image_url := u.hero_image_url.getD ""
    hero_video_url := u.hero_video_url.getD "" }

structure ViewingRequest where
  request_id : String := ""
  dealer_id : String := ""
  vehicle_id : String := ""
  type : String := ""
  status : String := "new"
  name : String := ""
  phone : String := ""
  email : String := ""
  preferred_date : String := ""
  preferred_time : String := ""
  notes : String := ""
  source : String := "storefront"
deriving DecidableEq, Repr

/-- The whole data store.  `profiles` and `viewing_requests` are kept newest
first (`created_at` descending, the order every list query uses); inserts
therefore prepend. -/
structure DB where
  profiles : List Profile := []
  vehicles : List Vehicle := []
  viewing_requests : List ViewingRequest := []
deriving DecidableEq, Repr

/-! ## services/supabase.js -/

/-- `getProfileByDealerId`: `eq("dealer_id", id).maybeSingle()`
(`dealer_id` is unique). -/
def getProfileByDealerId (db : DB) (dealerId : String) : Option Profile :=
  db.profiles.find? fun p => p.dealer_id = dealerId

/-- `getProfileByEmail`: `eq("profile_email", email).maybeSingle()`. -/
def getProfileByEmail (db : DB) (email : String) : Option Profile :=
  db.profiles.find? fun p => p.profile_email = email

/-- `getProfileByStripeCustomerId`. -/
def getProfileByStripeCustomerId (db : DB) (customerId : String) : Option Profile :=
  db.profiles.find? fun p => p.stripe_customer_id = customerId

/-- `getProfileByStripeSubscriptionId`. -/
def getProfileByStripeSubscriptionId (db : DB) (subscriptionId : String) : Option Profile :=
  db.profiles.find? fun p => p.stripe_subscription_id = subscriptionId

/-- Case-sensitive literal prefix test on character lists
(`LIKE 'DEALER-%'`). -/
def charsPrefixOf : List Char → List Char → Bool
  | [], _ => true
  | _ :: _, [] => false
  | a :: as, b :: bs => if a = b then charsPrefixOf as bs else false

/-- Byte-order `<` on strings (the text ordering the store applies). -/
def strLtB : List Char → List Char → Bool
  | [], [] => false
  | [], _ :: _ => true
  | _ :: _, [] => false
  | a :: as, b :: bs =>
    if a.toNat < b.toNat then true
    else if b.toNat < a.toNat then false
    else strLtB as bs

/-- `getLatestDealerId`: rows with `dealer_id LIKE 'DEALER-%'`, ordered by
`dealer_id` descending, first one; only the `dealer_id` column is selected. -/
def getLatestDealerId (db : DB) : Option String :=
  ((db.profiles.filter fun p => charsPrefixOf "DEALER-".data p.dealer_id.data).map
    fun p => p.dealer_id).foldl
    (fun acc id =>
      match acc with
      | none => some id
      | some m => if strLtB m.data id.data then some id else some m) none

/-- `upsertProfile` with `onConflict: "dealer_id"`, returning the row
(`select().single()`).  On conflict the payload's columns overwrite the
existing row; otherwise a fresh row (with table defaults) is prepended. -/
def upsertProfile (db : DB) (u : ProfilePatch) : DB × Profile :=
  match db.profiles.find? fun p => p.dealer_id = u.dealer_id with
  | some p =>
    ({ db with
        profiles := db.profiles.map fun q =>
          if q.dealer_id = u.dealer_id then applyProfilePatch q u else q },
      applyProfilePatch p u)
  | none =>
    let p := newProfileFromPatch u
    ({ db with profiles := p :: db.profiles }, p)

/-- `listProfiles({status})`: an absent or empty status applies no filter
(`if (status)` in the source). -/
def listProfiles (db : DB) (status : Option String) : List Profile :=
  match status with
  | some s => if s = "" then db.profiles else db.profiles.filter fun p => p.status = s
  | none => db.profiles

/-- `getVehicleByVehicleId` (`vehicle_id` is unique). -/
def getVehicleByVehicleId (db : DB) (vehicleId : String) : Option Vehicle :=
  db.vehicles.find? fun v => v.vehicle_id = vehicleId

/-- `createVehicle`: insert, returning the row. -/
def createVehicle (db : DB) (u : VehiclePatch) : DB × Vehicle :=
  let v := newVehicleFromPatch u
  ({ db with vehicles := v :: db.vehicles }, v)

/-- `updateVehicleByVehicleId`: update the matching row with the payload's
columns; `.single()` yields `none` (an error at the call sites) when no row
matches. -/
def updateVehicleByVehicleId (db : DB) (vehicleId : String) (u : VehiclePatch) :
    DB × Option Vehicle :=
  match db.vehicles.find? fun v => v.vehicle_id = vehicleId with
  | some v =>
    ({ db with
        vehicles := db.vehicles.map fun w =>
          if w.vehicle_id = vehicleId then applyVehiclePatch w u else w },
      some (applyVehiclePatch v u))
  | none => (db, none)

/-- `archiveVehicle`: `update({ archived: true, status: "archived" })`. -/
def archiveVehicle (db : DB) (vehicleId : String) : DB × Option Vehicle :=
  updateVehicleByVehicleId db vehicleId { archived := some true, status := some "archived" }

/-- `createViewingRequest`: insert, returning the row.  The handler adds the
optional columns only when their cleaned value is non-empty; since the
defaults are also empty, the payload is modelled as a full row. -/
def createViewingRequest (db : DB) (r : ViewingRequest) : DB × ViewingRequest :=
  ({ db with viewing_requests := r :: db.viewing_requests }, r)

/-! ## Auth service (`services/auth.js`)

Two revisions of the PBKDF2 passcode helpers coexist in the repository: the
Airtable-era service (with explicit guards on the parsed iteration count and
on the derived-hash length) and an earlier revision of the same file without
those guards.  Both store `pbkdf2$<iterations>$<saltB64>$<hashB64>`.

The pseudo-random function `crypto.pbkdf2Sync(·, ·, ·, 32, "sha256")` is an
abstract parameter `F : String → List Nat → Nat → List Nat` (passcode, salt,
iterations ↦ derived key); theorems assume its output bytes are `< 256` and
its output length is the requested 32 where needed.  Node throws unless the
iteration count is an integer in `[1, 2^31 - 1]`. -/

def pbkdf2Sync (F : String → List Nat → Nat → List Nat) (passcode : String)
    (salt : List Nat) (iterations : Option Int) : Except String (List Nat) :=
  match iterations with
  | none => .error "ERR_OUT_OF_RANGE: iterations is NaN"
  | some i =>
    if i < 1 ∨ 2147483647 < i then .error "ERR_OUT_OF_RANGE: iterations"
    else .ok (F passcode salt i.toNat)

/-- `crypto.timingSafeEqual(a, b)`: throws a `RangeError` when the buffers
differ in length, otherwise compares contents. -/
def timingSafeEqual (a b : List Nat) : Except String Bool :=
  if a.length ≠ b.length then
    .error "RangeError: Input buffers must have the same byte length"
  else .ok (a == b)

/-- `stored.split("$")` (split on every occurrence of the one-char
separator), accumulator-based. -/
def splitDollarAux : List Char → List Char → List (List Char)
  | [], acc => [acc.reverse]
  | c :: rest, acc =>
    if c = '$' then acc.reverse :: splitDollarAux rest []
    else splitDollarAux rest (c :: acc)

def jsSplitDollar (s : String) : List String :=
  (splitDollarAux s.data []).map fun l => ⟨l⟩

namespace AuthService

/-- `hashPasscode(passcode, iterations = 120000)` from the guarded revision
of `services/auth.js`; the 16 random salt bytes are an explicit parameter.
The repository only ever calls it with the default iteration count (for
which `pbkdf2Sync` cannot throw). -/
def hashPasscode (F : String → List Nat → Nat → List Nat) (salt : List Nat)
    (passcode : String) (iterations : Nat := 120000) : String :=
  "pbkdf2$" ++ toString iterations ++ "$" ++ b64Encode salt ++ "$" ++
    b64Encode (F passcode salt iterations)

/-- `verifyPasscode(passcode, stored)`, guarded revision: checks part count,
prefix, a finite iteration count `≥ 1`, and equal hash lengths before the
constant-time comparison. -/
def verifyPasscode (F : String → List Nat → Nat → List Nat)
    (passcode stored : String) : Except String Bool :=
  if stored = "" then .ok false
  else
    match jsSplitDollar stored with
    | [p0, p1, p2, p3] =>
      if p0 ≠ "pbkdf2" then .ok false
      else
        match jsParseInt p1 with
        | none => .ok false
        | some its =>
          if its < 1 then .ok false
          else
            match pbkdf2Sync F passcode (b64Decode p2) (some its) with
            | .error e => .error e
            | .ok hash =>
              if hash.length ≠ (b64Decode p3).length then .ok false
              else timingSafeEqual hash (b64Decode p3)
    | _ => .ok false

end AuthService

namespace AuthServiceV5

/-- `hashPasscode` from the earlier revision (identical storage format). -/
def hashPasscode (F : String → List Nat → Nat → List Nat) (salt : List Nat)
    (passcode : String) (iterations : Nat := 120000) : String :=
  "pbkdf2$" ++ toString iterations ++ "$" ++ b64Encode salt ++ "$" ++
    b64Encode (F passcode salt iterations)

/-- `verifyPasscode` from the earlier revision: after the part-count and
prefix checks it feeds the parsed iteration count straight into
`pbkdf2Sync` and the decoded hash straight into `timingSafeEqual`, so a
`NaN` iteration count or a wrong-length stored hash throws instead of
returning false. -/
def verifyPasscode (F : String → List Nat → Nat → List Nat)
    (passcode stored : String) : Except String Bool :=
  if stored = "" then .ok false
  else
    match jsSplitDollar stored with
    | [p0, p1, p2, p3] =>
      if p0 ≠ "pbkdf2" then .ok false
      else
        match pbkdf2Sync F passcode (b64Decode p2) (jsParseInt p1) with
        | .error e => .error e
        | .ok hash => timingSafeEqual hash (b64Decode p3)
    | _ => .ok false

end AuthServiceV5

/-! ### Split lemmas -/

theorem splitDollarAux_no_dollar (l acc : List Char) (h : '$' ∉ l) :
    splitDollarAux l acc = [acc.reverse ++ l] := by
  induction l generalizing acc with
  | nil => simp [splitDollarAux]
  | cons c rest ih =>
    have hc : c ≠ '$' := fun hc => h (hc ▸ List.mem_cons_self c rest)
    have hr : '$' ∉ rest := fun hr => h (List.mem_cons_of_mem c hr)
    simp [splitDollarAux, hc, ih _ hr]

theorem splitDollarAux_append (l1 l2 acc : List Char) (h : '$' ∉ l1) :
    splitDollarAux (l1 ++ '$' :: l2) acc = (acc.reverse ++ l1) :: splitDollarAux l2 [] := by
  induction l1 generalizing acc with
  | nil => simp [splitDollarAux]
  | cons c rest ih =>
    have hc : c ≠ '$' := fun hc => h (hc ▸ List.mem_cons_self c rest)
    have hr : '$' ∉ rest := fun hr => h (List.mem_cons_of_mem c hr)
    simp [splitDollarAux, hc, ih _ hr]

theorem jsSplitDollar_four (s1 s2 s3 s4 : String)
    (h1 : '$' ∉ s1.data) (h2 : '$' ∉ s2.data) (h3 : '$' ∉ s3.data) (h4 : '$' ∉ s4.data) :
    jsSplitDollar (s1 ++ "$" ++ s2 ++ "$" ++ s3 ++ "$" ++ s4) = [s1, s2, s3, s4] := by
  have hdata : (s1 ++ "$" ++ s2 ++ "$" ++ s3 ++ "$" ++ s4).data
      = s1.data ++ '$' :: (s2.data ++ '$' :: (s3.data ++ '$' :: s4.data)) := by
    simp [String.data_append]
  unfold jsSplitDollar
  rw [hdata, splitDollarAux_append _ _ _ h1, splitDollarAux_append _ _ _ h2,
    splitDollarAux_append _ _ _ h3, splitDollarAux_no_dollar _ _ h4]
  rfl

theorem jsSplitDollar_empty : jsSplitDollar "" = [""] := rfl

theorem sextetChar_lt_ne_dollar : ∀ n < 64, sextetChar n ≠ '$' := by decide

theorem dollar_not_mem_b64EncodeChunks (bs : List Nat) (hb : ∀ x ∈ bs, x < 256) :
    '$' ∉ b64EncodeChunks bs := by
  induction bs using b64EncodeChunks.induct with
  | case1 => simp [b64EncodeChunks]
  | case2 a =>
    have ha : a < 256 := hb a (by simp)
    have g1 := sextetChar_lt_ne_dollar (a / 4) (by omega)
    have g2 := sextetChar_lt_ne_dollar (a % 4 * 16) (by omega)
    intro hmem
    simp [b64EncodeChunks] at hmem
    rcases hmem with h | h
    exacts [g1 h.symm, g2 h.symm]
  | case3 a b =>
    have ha : a < 256 := hb a (by simp)
    have hbb : b < 256 := hb b (by simp)
    have g1 := sextetChar_lt_ne_dollar (a / 4) (by omega)
    have g2 := sextetChar_lt_ne_dollar (a % 4 * 16 + b / 16) (by omega)
    have g3 := sextetChar_lt_ne_dollar (b % 16 * 4) (by omega)
    intro hmem
    simp [b64EncodeChunks] at hmem
    rcases hmem with h | h | h
    exacts [g1 h.symm, g2 h.symm, g3 h.symm]
  | case4 a b c rest ih =>
    have ha : a < 256 := hb a (by simp)
    have hbb : b < 256 := hb b (by simp)
    have hc : c < 256 := hb c (by simp)
    have g1 := sextetChar_lt_ne_dollar (a / 4) (by omega)
    have g2 := sextetChar_lt_ne_dollar (a % 4 * 16 + b / 16) (by omega)
    have g3 := sextetChar_lt_ne_dollar (b % 16 * 4 + c / 64) (by omega)
    have g4 := sextetChar_lt_ne_dollar (c % 64) (by omega)
    have ih' := ih (fun x hx => hb x (by simp [hx]))
    intro hmem
    simp [b64EncodeChunks] at hmem
    rcases hmem with h | h | h | h | h
    exacts [g1 h.symm, g2 h.symm, g3 h.symm, g4 h.symm, ih' h]

theorem dollar_not_mem_b64Encode (bs : List Nat) (hb : ∀ x ∈ bs, x < 256) :
    '$' ∉ (b64Encode bs).data :=
  dollar_not_mem_b64EncodeChunks bs hb

/-! ### Passcode verification lemmas (guarded revision) -/

theorem hashPasscode_split (F : String → List Nat → Nat → List Nat)
    (salt : List Nat) (p : String) (its : Nat)
    (hs : '$' ∉ (b64Encode salt).data) (hh : '$' ∉ (b64Encode (F p salt its)).data)
    (ht : '$' ∉ (toString its).data) :
    jsSplitDollar (AuthService.hashPasscode F salt p its) =
      ["pbkdf2", toString its, b64Encode salt, b64Encode (F p salt its)] := by
  have h : AuthService.hashPasscode F salt p its =
      "pbkdf2" ++ "$" ++ toString its ++ "$" ++ b64Encode salt ++ "$" ++
        b64Encode (F p salt its) := by
    unfold AuthService.hashPasscode
    rw [show ("pbkdf2$" : String) = "pbkdf2" ++ "$" from by decide]
  rw [h]
  exact jsSplitDollar_four _ _ _ _ (by decide) ht hs hh

theorem ne_empty_of_split4 (s a b c d : String) (h : jsSplitDollar s = [a, b, c, d]) :
    s ≠ "" := by
  intro he
  rw [he, jsSplitDollar_empty] at h
  simp at h

theorem verifyPasscode_roundtrip (F : String → List Nat → Nat → List Nat)
    (hF : ∀ p s i, ∀ x ∈ F p s i, x < 256)
    (p : String) (salt : List Nat) (hsalt : ∀ x ∈ salt, x < 256) :
    AuthService.verifyPasscode F p (AuthService.hashPasscode F salt p) = .ok true := by
  have hsp := hashPasscode_split F salt p 120000 (dollar_not_mem_b64Encode _ hsalt)
    (dollar_not_mem_b64Encode _ (hF p salt 120000)) (by decide)
  have hne := ne_empty_of_split4 _ _ _ _ _ hsp
  have hpi : jsParseInt (toString (120000 : Nat)) = some 120000 := by decide
  unfold AuthService.verifyPasscode
  rw [if_neg hne, hsp]
  simp only [hpi, pbkdf2Sync, b64_roundtrip salt hsalt, b64_roundtrip _ (hF p salt 120000)]
  have htn : (120000 : Int).toNat = 120000 := rfl
  norm_num [timingSafeEqual, htn]

theorem verifyPasscode_altered (F : String → List Nat → Nat → List Nat)
    (hF : ∀ p s i, ∀ x ∈ F p s i, x < 256)
    (hF32 : ∀ p s i, (F p s i).length = 32)
    (p q : String) (salt : List Nat) (hsalt : ∀ x ∈ salt, x < 256)
    (hdiff : F q salt 120000 ≠ F p salt 120000) :
    AuthService.verifyPasscode F q (AuthService.hashPasscode F salt p) = .ok false := by
  have hsp := hashPasscode_split F salt p 120000 (dollar_not_mem_b64Encode _ hsalt)
    (dollar_not_mem_b64Encode _ (hF p salt 120000)) (by decide)
  have hne := ne_empty_of_split4 _ _ _ _ _ hsp
  have hpi : jsParseInt (toString (120000 : Nat)) = some 120000 := by decide
  unfold AuthService.verifyPasscode
  rw [if_neg hne, hsp]
  simp only [hpi, pbkdf2Sync, b64_roundtrip salt hsalt, b64_roundtrip _ (hF p salt 120000)]
  have htn : (120000 : Int).toNat = 120000 := rfl
  norm_num [timingSafeEqual, htn, hF32]
  exact fun h => absurd h hdiff

theorem verifyPasscode_partCount (F : String → List Nat → Nat → List Nat)
    (p s : String) (h : (jsSplitDollar s).length ≠ 4) :
    AuthService.verifyPasscode F p s = .ok false := by
  unfold AuthService.verifyPasscode
  split
  · rfl
  · split
    · next p0 p1 p2 p3 heq => exact absurd (by rw [heq]; rfl) h
    · rfl

theorem verifyPasscode_badPrefix (F : String → List Nat → Nat → List Nat)
    (p s p0 p1 p2 p3 : String) (h : jsSplitDollar s = [p0, p1, p2, p3])
    (hp0 : p0 ≠ "pbkdf2") :
    AuthService.verifyPasscode F p s = .ok false := by
  have hne := ne_empty_of_split4 _ _ _ _ _ h
  unfold AuthService.verifyPasscode
  rw [if_neg hne, h]
  simp [hp0]

theorem verifyPasscode_nanIterations (F : String → List Nat → Nat → List Nat)
    (p s p0 p1 p2 p3 : String) (h : jsSplitDollar s = [p0, p1, p2, p3])
    (hits : jsParseInt p1 = none) :
    AuthService.verifyPasscode F p s = .ok false := by
  have hne := ne_empty_of_split4 _ _ _ _ _ h
  unfold AuthService.verifyPasscode
  rw [if_neg hne, h]
  by_cases hp0 : p0 = "pbkdf2"
  · simp [hp0, hits]
  · simp [hp0]

theorem verifyPasscode_wrongHashLen (F : String → List Nat → Nat → List Nat)
    (hF32 : ∀ p s i, (F p s i).length = 32)
    (p : String) (salt hash : List Nat)
    (hsalt : ∀ x ∈ salt, x < 256) (hhash : ∀ x ∈ hash, x < 256)
    (hlen : hash.length ≠ 32) :
    AuthService.verifyPasscode F p
      ("pbkdf2" ++ "$" ++ "120000" ++ "$" ++ b64Encode salt ++ "$" ++ b64Encode hash) =
      .ok false := by
  have hsp := jsSplitDollar_four "pbkdf2" "120000" (b64Encode salt) (b64Encode hash)
    (by decide) (by decide) (dollar_not_mem_b64Encode _ hsalt)
    (dollar_not_mem_b64Encode _ hhash)
  have hne := ne_empty_of_split4 _ _ _ _ _ hsp
  have hpi : jsParseInt "120000" = some 120000 := by decide
  unfold AuthService.verifyPasscode
  rw [if_neg hne, hsp]
  simp only [hpi, pbkdf2Sync, b64_roundtrip hash hhash]
  norm_num [hF32, hlen]
  omega

/-! ## server.js helpers -/

/-- JS `a || b` on strings (the empty string is the only falsy string). -/
def jsOrS (a b : String) : String :=
  if a ≠ "" then a else b

/-- JS `a || undefined` (drop an empty string from an insert payload). -/
def strOrUndef (a : String) : Option String :=
  if a ≠ "" then some a else none

/-- JS `a || b || undefined`. -/
def orUndef (a b : String) : Option String :=
  strOrUndef (jsOrS a b)

/-- `isPausedDealer` from `server.js`. -/
def isPausedDealer (dealer : Profile) : Bool :=
  jsToLower (cleanStr (some dealer.status) 30) = "paused"

/-- `isSubscriptionActive` from `server.js`: a missing dealer is inactive;
an empty stored subscription status counts as active; `active`/`trialing`
count as active; otherwise the dealer is active exactly while a parseable
`trial_ends_at` lies in the future. -/
def isSubscriptionActive (dealer : Option Profile) (now : Int) : Bool :=
  match dealer with
  | none => false
  | some d =>
    let status := jsToLower (cleanStr (some d.stripe_subscription_status) 40)
    if status = "" then true
    else if status = "active" ∨ status = "trialing" then true
    else
      match d.trial_ends_at with
      | some t => t > now
      | none => false

/-- `mapRequestTypeToEnum` from `server.js`. -/
def mapRequestTypeToEnum (type : Option String) : Option String :=
  let t := jsToLower (cleanStr type 40)
  if t = "whatsapp" ∨ t = "wa" ∨ t = "chat" then some "whatsapp"
  else if t = "live_video" ∨ t = "live video" ∨ t = "video" ∨ t = "live" then some "live_video"
  else if t = "walk_in" ∨ t = "walk-in" ∨ t = "walkin" ∨ t = "in_store" ∨ t = "in-store" ∨
      t = "in person" then some "walk_in"
  else none

/-- `normalizeVehicleStatus` from `server.js`. -/
def normalizeVehicleStatus (value : Option String) : String :=
  let s := jsToLower (cleanStr value 40)
  if s = "available" then "available"
  else if s = "pending" then "pending"
  else if s = "sold" then "sold"
  else if s = "archived" then "archived"
  else ""

/-- `generateRequestId()`; the random UUID is a parameter. -/
def generateRequestId (uuid : String) : String :=
  "REQ-" ++ uuid

/-- One attempted transactional e-mail (`services/email.js`); only the
arguments the claims inspect are carried. -/
inductive EmailMsg where
  | welcome (email dealerId passcode plan : String)
  | suspensionNotice (dealerEmail dealerId reason : String)
  | failedPayment (dealerEmail dealerId : String) (nextAttempt : Option Int)
  | passcodeReset (dealerEmail resetToken : String) (expiresAt : Int)
  | referralInvite (dealerEmail : String)
deriving DecidableEq, Repr

def EmailMsg.isSuspensionNotice : EmailMsg → Bool
  | .suspensionNotice _ _ _ => true
  | _ => false

/-! ## Billing webhook reconciliation (`server.js`) -/

/-- The fields of a Stripe subscription object the handlers read.
`trial_end` is epoch seconds (`none` = null); `latest_invoice` is the
invoice id with `""` for null. -/
structure StripeSubscription where
  id : String := ""
  customer : String := ""
  status : String := ""
  trial_end : Option Int := none
  latest_invoice : String := ""
deriving DecidableEq, Repr

/-- The fields of a Stripe checkout session the handlers read (metadata and
customer details flattened, `""` for absent). -/
structure CheckoutSession where
  customer : String := ""
  subscription : String := ""
  metadata_tier : String := ""
  metadata_plan : String := ""
  metadata_email : String := ""
  metadata_business_name : String := ""
  metadata_businessName : String := ""
  metadata_whatsapp : String := ""
  metadata_referral_code : String := ""
  customer_details_email : String := ""
  customer_details_name : String := ""
deriving DecidableEq, Repr

structure StripeInvoice where
  customer : String := ""
  next_payment_attempt : Option Int := none
deriving DecidableEq, Repr

/-- `trial_end ? new Date(trial_end * 1000).toISOString() : …` — the JS
truthiness test makes `0` behave like null. -/
def subscriptionTrialEndMs (subscription : Option StripeSubscription) : Option Int :=
  match subscription with
  | some sub =>
    match sub.trial_end with
    | some t => if t ≠ 0 then some (t * 1000) else none
    | none => none
  | none => none

/-- `processReferralReward` from `server.js`.  Note the faithful quirk: the
referrer lookup calls `listProfiles({ referral_code })`, but `listProfiles`
destructures only `{ status }`, so no filter is applied and the most
recently created profile is picked. -/
def processReferralReward (db : DB) (referralCode : String) : DB × List EmailMsg :=
  match listProfiles db none with
  | [] => (db, [])
  | referrer :: _ =>
    let db1 := (upsertProfile db
      { dealer_id := referrer.dealer_id
        referral_credits := some (referrer.referral_credits + 1) }).1
    let emails :=
      if referrer.profile_email ≠ "" then [EmailMsg.referralInvite referrer.profile_email] else []
    (db1, emails)

/-- Pieces of entropy consumed by provisioning: `generatePasscode()`, the
`generateReferralCode` suffix, and `crypto.randomUUID().slice(0,8)`
(already upper-cased) for the dealer-id fallback. -/
structure RandomInputs where
  passcode : String := "123456"
  refSuffix : String := "ABCDEF"
  uuid8 : String := "0A1B2C3D"
deriving DecidableEq, Repr

/-- Case-insensitive literal prefix match; returns the remainder. -/
def matchPrefixCI : List Char → List Char → Option (List Char)
  | [], cs => some cs
  | _ :: _, [] => none
  | p :: ps, c :: cs => if c.toLower = p then matchPrefixCI ps cs else none

/-- First match of `/DEALER-(\d+)/i`: scan for a case-insensitive
`DEALER-` followed by at least one digit, returning the value of the
maximal digit run. -/
def scanDealerNum : List Char → Option Nat
  | [] => none
  | c :: rest =>
    match matchPrefixCI "dealer-".data (c :: rest) with
    | some rem =>
      match leadingNat rem with
      | some n => some n
      | none => scanDealerNum rest
    | none => scanDealerNum rest

/-- First half of `generateNextDealerId`: `Number(match[1]) + 1` from the
latest `DEALER-…` id, defaulting to 1. -/
def nextDealerNumber (db : DB) : Nat :=
  match getLatestDealerId db with
  | some id =>
    if id ≠ "" then
      match scanDealerNum id.data with
      | some n => n + 1
      | none => 1
    else 1
  | none => 1

/-- One loop candidate: `DEALER-${String(n).padStart(4, "0")}`. -/
def dealerCandidate (n : Nat) : String :=
  "DEALER-" ++ padStart4 (toString n)

/-- The `for (let i = 0; i < 50; i += 1)` probe loop: first candidate with
no existing profile, `none` if all `k` probes are taken. -/
def findFreeCandidate (db : DB) : Nat → Nat → Option String
  | _, 0 => none
  | start, k + 1 =>
    if (getProfileByDealerId db (dealerCandidate start)).isNone then some (dealerCandidate start)
    else findFreeCandidate db (start + 1) k

/-- `generateNextDealerId` from `server.js`. -/
def generateNextDealerId (db : DB) (uuid8 : String) : String :=
  match findFreeCandidate db (nextDealerNumber db) 50 with
  | some c => c
  | none => "DEALER-" ++ uuid8

/-- The dealer match of provisioning: by Stripe customer id first, then by
subscription id. -/
def provisionDealerLookup (db : DB) (customerId subscriptionId : String) : Option Profile :=
  match (if customerId ≠ "" then getProfileByStripeCustomerId db customerId else none) with
  | some d => some d
  | none => if subscriptionId ≠ "" then getProfileByStripeSubscriptionId db subscriptionId else none

/-- Result of `provisionDealerFromStripe`: the new store, attempted
e-mails, and the returned `{ dealer, passcode }` (or null for a null
session). -/
structure ProvisionResult where
  db : DB
  emails : List EmailMsg
  result : Option (Profile × Option String)
deriving DecidableEq, Repr

/-- `provisionDealerFromStripe({session, subscription, passcodeOverride})`
from `server.js`.  The fire-and-forget welcome / referral work is modelled
as completing. -/
def provisionDealerFromStripe (db : DB) (session : Option CheckoutSession)
    (subscription : Option StripeSubscription) (passcodeOverride : Option String)
    (rand : RandomInputs) (now : Int) : ProvisionResult :=
  match session with
  | none => { db := db, emails := [], result := none }
  | some s =>
    let customerId := s.customer
    let subscriptionId := jsOrS s.subscription ((subscription.map fun sub => sub.id).getD "")
    let tier := jsToLower (cleanStr (some (jsOrS s.metadata_tier s.metadata_plan)) 40)
    let plan := tier
    let email := cleanStr (some (jsOrS s.metadata_email s.customer_details_email)) 120
    let name := cleanStr
      (some (jsOrS s.metadata_business_name (jsOrS s.metadata_businessName s.customer_details_name))) 120
    let whatsapp := normalizePhone (some s.metadata_whatsapp)
    let referralCode := cleanStr (some s.metadata_referral_code) 20
    let dealer := provisionDealerLookup db customerId subscriptionId
    let trialEndsAt :=
      match subscriptionTrialEndMs subscription with
      | some t => t
      | none => now + 14 * 24 * 60 * 60 * 1000
    let status := jsOrS ((subscription.map fun sub => sub.status).getD "") "trialing"
    match dealer with
    | none =>
      let dealerId := generateNextDealerId db rand.uuid8
      let passcode := jsOrS (passcodeOverride.getD "") rand.passcode
      let newReferralCode := "REF-" ++ rand.refSuffix
      let up := upsertProfile db
        { dealer_id := dealerId
          name := some (jsOrS name "Dealer")
          status := some "active"
          profile_email := strOrUndef email
          whatsapp := strOrUndef whatsapp
          password := some passcode
          plan := some plan
          trial_ends_at := some (some trialEndsAt)
          stripe_customer_id := strOrUndef customerId
          stripe_subscription_id := strOrUndef subscriptionId
          stripe_subscription_status := some status
          referral_code := some newReferralCode
          referred_by := strOrUndef referralCode }
      let welcome :=
        if email ≠ "" then
          [EmailMsg.welcome email dealerId passcode (jsOrS plan "Tier 1")]
        else []
      let reward := if referralCode ≠ "" then processReferralReward up.1 referralCode else (up.1, [])
      { db := reward.1, emails := welcome ++ reward.2, result := some (up.2, some passcode) }
    | some d =>
      let up := upsertProfile db
        { dealer_id := d.dealer_id
          name := orUndef name d.name
          profile_email := orUndef email d.profile_email
          whatsapp := orUndef whatsapp d.whatsapp
          plan := orUndef plan d.plan
          trial_ends_at := some (some trialEndsAt)
          stripe_customer_id := orUndef customerId d.stripe_customer_id
          stripe_subscription_id := orUndef subscriptionId d.stripe_subscription_id
          stripe_subscription_status := some status }
      { db := up.1, emails := [], result := some (up.2, none) }

/-- The direct dealer lookup of the subscription webhook case: by Stripe
customer id first, then by subscription id. -/
def subscriptionDealerLookup (db : DB) (sub : StripeSubscription) : Option Profile :=
  match (if sub.customer ≠ "" then getProfileByStripeCustomerId db sub.customer else none) with
  | some d => some d
  | none => if sub.id ≠ "" then getProfileByStripeSubscriptionId db sub.id else none

/-- The `customer.subscription.{created,updated,deleted}` webhook case.
`sessionLookup` is the outcome of
`stripe.checkout.sessions.list({customer, limit: 1})`, consulted only when
`subscription.latest_invoice` is truthy. -/
def handleSubscriptionEvent (db : DB) (sub : StripeSubscription)
    (sessionLookup : Option CheckoutSession) (rand : RandomInputs) (now : Int) :
    DB × List EmailMsg :=
  let session := if sub.latest_invoice ≠ "" then sessionLookup else none
  match session with
  | some s =>
    let r := provisionDealerFromStripe db (some s) (some sub) none rand now
    (r.db, r.emails)
  | none =>
    match subscriptionDealerLookup db sub with
    | none => (db, [])
    | some d =>
      let db1 := (upsertProfile db
        { dealer_id := d.dealer_id
          stripe_subscription_status := some sub.status
          trial_ends_at := some (match sub.trial_end with
            | some t => if t ≠ 0 then some (t * 1000) else d.trial_ends_at
            | none => d.trial_ends_at)
          stripe_subscription_id := some sub.id
          stripe_customer_id := some (jsOrS sub.customer d.stripe_customer_id) }).1
      if sub.status = "canceled" ∨ sub.status = "unpaid" then
        let db2 := (upsertProfile db1 { dealer_id := d.dealer_id, status := some "paused" }).1
        let emails :=
          if d.profile_email ≠ "" then
            [EmailMsg.suspensionNotice d.profile_email d.dealer_id
              (if sub.status = "canceled" then "Your subscription has been canceled."
               else "Payment failed after multiple attempts.")]
          else []
        (db2, emails)
      else (db1, [])

/-- The `invoice.payment_failed` webhook case: look the dealer up and fire
a non-blocking failed-payment e-mail; nothing is written. -/
def handleInvoicePaymentFailed (db : DB) (inv : StripeInvoice) : DB × List EmailMsg :=
  match (if inv.customer ≠ "" then getProfileByStripeCustomerId db inv.customer else none) with
  | some d =>
    if d.profile_email ≠ "" then
      (db, [EmailMsg.failedPayment d.profile_email d.dealer_id inv.next_payment_attempt])
    else (db, [])
  | none => (db, [])

/-! ## Public viewing-request creation (`server.js`) -/

/-- JS `a || b` on possibly-absent strings (before cleaning). -/
def jsOrOpt (a b : Option String) : Option String :=
  match a with
  | some s => if s ≠ "" then some s else b
  | none => b

/-- JS `a ?? b` on possibly-absent JSON values. -/
def jsNullish (a b : Option JsVal) : Option JsVal :=
  match a with
  | some .vNull => b
  | some v => some v
  | none => b

structure RequestBody where
  requestType : Option String := none
  customerName : Option String := none
  phone : Option String := none
  email : Option String := none
  preferredDate : Option String := none
  preferredTime : Option String := none
  notes : Option String := none
  vehicleId : Option String := none
deriving DecidableEq, Repr

inductive CreateRequestRes where
  | created (request : ViewingRequest)
  | failure (status : Nat) (error : String)
deriving DecidableEq, Repr

def CreateRequestRes.statusCode : CreateRequestRes → Nat
  | .created _ => 201
  | .failure s _ => s

/-- `POST /api/public/dealer/:dealerId/requests` from `server.js`; `uuid`
is the `crypto.randomUUID()` behind `generateRequestId`. -/
def postPublicRequest (db : DB) (dealerIdParam : String) (body : RequestBody)
    (uuid : String) : CreateRequestRes × DB :=
  let dealerId := cleanStr (some dealerIdParam) 60
  if ¬ isValidDealerId dealerId then (.failure 400 "Invalid dealerId", db)
  else
    match mapRequestTypeToEnum body.requestType with
    | none => (.failure 400 "Invalid requestType. Use whatsapp, live_video, or walk_in.", db)
    | some typeEnum =>
      let name := cleanStr body.customerName 120
      let phone := normalizePhone body.phone
      let email := cleanStr body.email 120
      let preferredDate := cleanStr body.preferredDate 40
      let preferredTime := cleanStr body.preferredTime 60
      let notes := cleanStr body.notes 1200
      let vehicleId := cleanStr body.vehicleId 60
      if name = "" then (.failure 400 "customerName is required", db)
      else if phone = "" ∨ phone.length < 7 then (.failure 400 "phone is required", db)
      else
        match getProfileByDealerId db dealerId with
        | none => (.failure 404 "Dealer not found", db)
        | some dealer =>
          if isPausedDealer dealer then (.failure 403 "Dealer storefront is paused", db)
          else
            let safeVehicleId :=
              if vehicleId ≠ "" then
                match getVehicleByVehicleId db vehicleId with
                | some v => if cleanStr (some v.dealer_id) 60 = dealerId then vehicleId else ""
                | none => ""
              else ""
            let c := createViewingRequest db
              { dealer_id := dealerId
                request_id := generateRequestId uuid
                type := typeEnum
                status := "new"
                name := name
                phone := phone
                source := "storefront"
                vehicle_id := safeVehicleId
                email := email
                preferred_date := preferredDate
                preferred_time := preferredTime
                notes := notes }
            (.created c.2, c.1)

/-! ## Dealer vehicle routes (`server.js`) -/

/-- Truthy-first choice of two possibly-absent numbers, then `|| 0`
(`Number(body.x || body.X || 0)`; these fields carry JSON numbers). -/
def jsOrNum (a : Option Int) (dflt : Int) : Int :=
  match a with
  | some x => if x ≠ 0 then x else dflt
  | none => dflt

/-- `Number(a || b || 0) || null`. -/
def jsNumField (a b : Option Int) : Option Int :=
  let n := jsOrNum a (jsOrNum b 0)
  if n = 0 then none else some n

/-- The request body of the create-or-update vehicle route, with both the
lower-case and the capitalised field spellings the handler accepts.
`bodyTypeQ`/`fuelTypeQ`/`notesDescriptionQ` stand for the quoted JS keys
`"Body Type"`, `"Fuel Type"` and `"notes / description"`. -/
structure VehicleBody where
  vehicleId : Option String := none
  title : Option String := none
  Title : Option String := none
  make : Option String := none
  Make : Option String := none
  model : Option String := none
  Model : Option String := none
  year : Option Int := none
  Year : Option Int := none
  vin : Option String := none
  VIN : Option String := none
  price : Option Int := none
  Price : Option Int := none
  status : Option String := none
  Status : Option String := none
  availability : Option JsVal := none
  Availability : Option JsVal := none
  archived : Option JsVal := none
  mileage : Option Int := none
  Mileage : Option Int := none
  color : Option String := none
  Color : Option String := none
  bodyType : Option String := none
  bodyTypeQ : Option String := none
  transmission : Option String := none
  Transmission : Option String := none
  fuelType : Option String := none
  fuelTypeQ : Option String := none
  description : Option String := none
  notes : Option String := none
  Description : Option String := none
  notesDescriptionQ : Option String := none
  cloudinaryImageUrls : Option String := none
  cloudinaryImageUrl : Option String := none
  cloudinaryVideoUrl : Option String := none
  heroImageUrl : Option String := none
  hero_image_url : Option String := none
  heroVideoUrl : Option String := none
  hero_video_url : Option String := none
deriving DecidableEq, Repr

/-- `mapVehicleInput(body)` from `server.js` composed with
`pruneUndefined`: the string and numeric fields are always present (the
numerics possibly as an explicit null), while `availability`/`archived`
survive only when `toBool` returns a boolean. -/
def mapVehicleInput (body : VehicleBody) : VehiclePatch :=
  { title := some (cleanStr (jsOrOpt body.title body.Title) 120)
    make := some (cleanStr (jsOrOpt body.make body.Make) 80)
    model := some (cleanStr (jsOrOpt body.model body.Model) 80)
    year := some (jsNumField body.year body.Year)
    vin := some (cleanStr (jsOrOpt body.vin body.VIN) 80)
    price := some (jsNumField body.price body.Price)
    status := some (jsOrS (normalizeVehicleStatus (jsOrOpt body.status body.Status))
      (cleanStr (jsOrOpt body.status body.Status) 40))
    availability := toBoolJs (jsNullish body.availability body.Availability)
    archived := toBoolJs body.archived
    mileage := some (jsNumField body.mileage body.Mileage)
    color := some (cleanStr (jsOrOpt body.color body.Color) 60)
    body_type := some (cleanStr (jsOrOpt body.bodyType body.bodyTypeQ) 60)
    transmission := some (cleanStr (jsOrOpt body.transmission body.Transmission) 60)
    fuel_type := some (cleanStr (jsOrOpt body.fuelType body.fuelTypeQ) 60)
    description := some (cleanStr
      (jsOrOpt body.description (jsOrOpt body.notes (jsOrOpt body.Description body.notesDescriptionQ))) 2000)
    cloudinary_image_urls := some (cleanStr (jsOrOpt body.cloudinaryImageUrls body.cloudinaryImageUrl) 5000)
    cloudinary_video_url := some (cleanStr body.cloudinaryVideoUrl 2000)
    hero_image_url := some (cleanStr (jsOrOpt body.heroImageUrl body.hero_image_url) 2000)
    hero_video_url := some (cleanStr (jsOrOpt body.heroVideoUrl body.hero_video_url) 2000) }

inductive VehicleRes where
  | okV (vehicle : Vehicle)
  | failure (status : Nat) (error : String)
deriving DecidableEq, Repr

def VehicleRes.statusCode : VehicleRes → Nat
  | .okV _ => 200
  | .failure s _ => s

/-- `POST /api/dealer/vehicles` from `server.js` (create-or-update by
`vehicleId`, `dealer_id` forced server-side), run after
`requireActiveDealer`; `userDealerId` is the token's dealer id. -/
def postDealerVehicles (db : DB) (userDealerId : String) (body : VehicleBody) :
    VehicleRes × DB :=
  let dealerId := cleanStr (some userDealerId) 60
  let vehicleId := cleanStr body.vehicleId 60
  if vehicleId = "" then (.failure 400 "vehicleId is required", db)
  else
    match getVehicleByVehicleId db vehicleId with
    | some existing =>
      if existing.dealer_id ≠ dealerId then
        (.failure 403 "Vehicle belongs to another dealer", db)
      else
        let fields := { mapVehicleInput body with
          dealer_id := some dealerId, vehicle_id := some vehicleId }
        match updateVehicleByVehicleId db vehicleId fields with
        | (db1, some v) => (.okV v, db1)
        | (db1, none) => (.failure 500 "Failed to save vehicle", db1)
    | none =>
      let fields := { mapVehicleInput body with
        dealer_id := some dealerId, vehicle_id := some vehicleId }
      let c := createVehicle db fields
      (.okV c.2, c.1)

/-- `POST /api/dealer/vehicles/:vehicleId/archive` from `server.js`. -/
def postDealerVehicleArchive (db : DB) (userDealerId : String)
    (vehicleIdParam : String) : VehicleRes × DB :=
  let vehicleId := cleanStr (some vehicleIdParam) 60
  if vehicleId = "" then (.failure 400 "vehicleId is required", db)
  else
    let dealerId := cleanStr (some userDealerId) 60
    match getVehicleByVehicleId db vehicleId with
    | none => (.failure 404 "Vehicle not found", db)
    | some existing =>
      if existing.dealer_id ≠ dealerId then
        (.failure 403 "Vehicle belongs to another dealer", db)
      else
        match archiveVehicle db vehicleId with
        | (db1, some v) => (.okV v, db1)
        | (db1, none) => (.failure 500 "Internal Server Error", db1)

/-! ## Passcode reset flow (`server.js`) -/

/-- Value stored in the in-memory `resetTokens` map. -/
structure ResetData where
  dealerId : String
  email : String
  expiresAt : Int
deriving DecidableEq, Repr

/-- `Map.prototype.set` (replace an existing key, else append in insertion
order). -/
def tokenSet (toks : List (String × ResetData)) (k : String) (v : ResetData) :
    List (String × ResetData) :=
  if toks.any fun e => e.1 = k then
    toks.map fun e => if e.1 = k then (k, v) else e
  else toks ++ [(k, v)]

/-- `Map.prototype.get`. -/
def tokenGet (toks : List (String × ResetData)) (k : String) : Option ResetData :=
  (toks.find? fun e => e.1 = k).map fun e => e.2

/-- `Map.prototype.delete`. -/
def tokenDelete (toks : List (String × ResetData)) (k : String) :
    List (String × ResetData) :=
  toks.filter fun e => e.1 ≠ k

/-- `generateResetToken()`: `crypto.randomBytes(32).toString("hex")`; the
32 random bytes are a parameter. -/
def generateResetToken (bytes : List Nat) : String :=
  ⟨hexEncode bytes⟩

/-- An `{ok, message|error}` JSON reply together with its HTTP status. -/
structure JsonRes where
  status : Nat
  ok : Bool
  message : String
deriving DecidableEq, Repr

/-- `POST /api/dealer/request-reset` from `server.js`.  Returns the reply,
the new token store and the attempted e-mails; the profile store is never
written. -/
def postDealerRequestReset (db : DB) (toks : List (String × ResetData))
    (bodyEmail : Option String) (resetBytes : List Nat) (now : Int) :
    JsonRes × List (String × ResetData) × List EmailMsg :=
  let email := cleanStr bodyEmail 120
  if email = "" ∨ ¬ isValidEmail email then
    ({ status := 400, ok := false, message := "Valid email is required" }, toks, [])
  else
    match getProfileByEmail db email with
    | none =>
      ({ status := 200, ok := true,
         message := "If an account exists, a reset link has been sent." }, toks, [])
    | some dealer =>
      let resetToken := generateResetToken resetBytes
      let expiresAt := now + 60 * 60 * 1000
      let toks1 := tokenSet toks resetToken
        { dealerId := dealer.dealer_id, email := dealer.profile_email, expiresAt := expiresAt }
      let toks2 := toks1.filter fun e => ¬ e.2.expiresAt < now
      ({ status := 200, ok := true,
         message := "If an account exists, a reset link has been sent." },
        toks2, [EmailMsg.passcodeReset dealer.profile_email resetToken expiresAt])

/-- `POST /api/dealer/reset-passcode` from `server.js`. -/
def postDealerResetPasscode (db : DB) (toks : List (String × ResetData))
    (bodyToken bodyPasscode : Option String) (now : Int) :
    JsonRes × DB × List (String × ResetData) :=
  let token := cleanStr bodyToken 100
  let newPasscode := cleanStr bodyPasscode 120
  if token = "" then
    ({ status := 400, ok := false, message := "Reset token is required" }, db, toks)
  else if newPasscode = "" ∨ newPasscode.length < 6 then
    ({ status := 400, ok := false, message := "Passcode must be at least 6 characters" }, db, toks)
  else
    match tokenGet toks token with
    | none =>
      ({ status := 400, ok := false, message := "Invalid or expired reset token" }, db, toks)
    | some resetData =>
      if resetData.expiresAt < now then
        ({ status := 400, ok := false, message := "Reset token has expired" }, db,
          tokenDelete toks token)
      else
        let db1 := (upsertProfile db
          { dealer_id := resetData.dealerId, password := some newPasscode }).1
        ({ status := 200, ok := true, message := "Passcode updated successfully" }, db1,
          tokenDelete toks token)

/-! ## Dealer login and active-dealer gate (`server.js`) -/

structure LoginBody where
  dealerId : Option String := none
  email : Option String := none
  passcode : Option String := none
deriving DecidableEq, Repr

/-- The identifier pair the login handler derives from the body: a
dealer-id candidate and an e-mail candidate (a dealer-id field holding a
valid e-mail is treated as the e-mail). -/
def loginIdentity (body : LoginBody) : String × String :=
  let rawIdentity := cleanStr body.dealerId 120
  let emailFromDealerId := if rawIdentity ≠ "" ∧ isValidEmail rawIdentity then rawIdentity else ""
  (if emailFromDealerId ≠ "" then "" else rawIdentity,
    jsOrS emailFromDealerId (cleanStr body.email 120))

/-- The dealer the login handler resolves (dealer-id lookup first, then
e-mail), mirroring the `dealer` binding inside the handler. -/
def loginLookup (db : DB) (body : LoginBody) : Option Profile :=
  match (if (loginIdentity body).1 ≠ "" then getProfileByDealerId db (loginIdentity body).1
      else none) with
  | some d => some d
  | none =>
    if (loginIdentity body).2 ≠ "" then getProfileByEmail db (loginIdentity body).2 else none

inductive LoginRes where
  | okTok (dealerId : String)
  | failure (status : Nat) (error : String)
deriving DecidableEq, Repr

def LoginRes.statusCode : LoginRes → Nat
  | .okTok _ => 200
  | .failure s _ => s

/-- `POST /api/dealer/login` from `server.js` (Supabase revision: plaintext
passcode comparison against `dealer.password`).  On success a dealer-scoped
token for the returned id is issued. -/
def postDealerLogin (db : DB) (body : LoginBody) (now : Int) : LoginRes :=
  if (loginIdentity body).1 = "" ∧ (loginIdentity body).2 = "" then
    .failure 400 "dealerId or email is required"
  else if (loginIdentity body).1 ≠ "" ∧ ¬ isValidDealerId (loginIdentity body).1 then
    .failure 400 "Invalid dealerId"
  else if (loginIdentity body).2 ≠ "" ∧ ¬ isValidEmail (loginIdentity body).2 then
    .failure 400 "Invalid email"
  else if cleanStr body.passcode 120 = "" then .failure 400 "passcode is required"
  else
    match loginLookup db body with
    | none => .failure 401 "Dealer not found"
    | some dealer =>
      if isPausedDealer dealer then .failure 403 "Dealer account is paused"
      else if ¬ isSubscriptionActive (some dealer) now then .failure 402 "Subscription inactive"
      else if dealer.password = "" then .failure 401 "Dealer passcode not set"
      else if cleanStr body.passcode 120 ≠ dealer.password then .failure 401 "Invalid passcode"
      else .okTok (jsOrS dealer.dealer_id (loginIdentity body).1)

/-- The `requireActiveDealer` middleware (`server.js`): the error status it
responds with (`404`/`403`/`402`), or `none` when the request proceeds. -/
def requireActiveDealerCheck (db : DB) (userDealerId : String) (now : Int) : Option Nat :=
  let dealerId := cleanStr (some userDealerId) 60
  match getProfileByDealerId db dealerId with
  | none => some 404
  | some dealer =>
    if isPausedDealer dealer then some 403
    else if ¬ isSubscriptionActive (some dealer) now then some 402
    else none

/-! ## Airtable revision of the dealer vehicle patch (`routes/dealer.js`)

The Airtable store keeps camel-case / display field names; `bodyTypeQ`,
`fuelTypeQ`, `videoUrlsQ` and `notesDescriptionQ` stand for the quoted
Airtable fields `"Body Type"`, `"Fuel Type"`, `"Video URLs"` and
`"notes / description"`. -/

structure AtVehicle where
  airtableRecordId : String := ""
  dealerId : String := ""
  vehicleId : String := ""
  title : String := ""
  status : String := ""
  Make : String := ""
  Model : String := ""
  Year : Option Int := none
  VIN : String := ""
  Price : Option Int := none
  Mileage : Option Int := none
  Color : String := ""
  bodyTypeQ : String := ""
  Transmission : String := ""
  fuelTypeQ : String := ""
  videoUrlsQ : String := ""
  Description : String := ""
  notesDescriptionQ : String := ""
  cloudinaryImageUrls : String := ""
  cloudinaryVideoUrl : String := ""
  archived : Bool := false
  Availability : Bool := false
deriving DecidableEq, Repr

structure AtVehiclePatch where
  title : Option String := none
  status : Option String := none
  Make : Option String := none
  Model : Option String := none
  Year : Option Int := none
  VIN : Option String := none
  Price : Option Int := none
  Mileage : Option Int := none
  Color : Option String := none
  bodyTypeQ : Option String := none
  Transmission : Option String := none
  fuelTypeQ : Option String := none
  videoUrlsQ : Option String := none
  Description : Option String := none
  notesDescriptionQ : Option String := none
  cloudinaryImageUrls : Option String := none
  cloudinaryVideoUrl : Option String := none
  archived : Option Bool := none
  Availability : Option Bool := none
deriving DecidableEq, Repr

def applyAtVehiclePatch (v : AtVehicle) (u : AtVehiclePatch) : AtVehicle :=
  { v with
    title := u.title.getD v.title
    status := u.status.getD v.status
    Make := u.Make.getD v.Make
    Model := u.Model.getD v.Model
    Year := match u.Year with | some y => some y | none => v.Year
    VIN := u.VIN.getD v.VIN
    Price := match u.Price with | some p => some p | none => v.Price
    Mileage := match u.Mileage with | some m => some m | none => v.Mileage
    Color := u.Color.getD v.Color
    bodyTypeQ := u.bodyTypeQ.getD v.bodyTypeQ
    Transmission := u.Transmission.getD v.Transmission
    fuelTypeQ := u.fuelTypeQ.getD v.fuelTypeQ
    videoUrlsQ := u.videoUrlsQ.getD v.videoUrlsQ
    Description := u.Description.getD v.Description
    notesDescriptionQ := u.notesDescriptionQ.getD v.notesDescriptionQ
    cloudinaryImageUrls := u.cloudinaryImageUrls.getD v.cloudinaryImageUrls
    cloudinaryVideoUrl := u.cloudinaryVideoUrl.getD v.cloudinaryVideoUrl
    archived := u.archived.getD v.archived
    Availability := u.Availability.getD v.Availability }

def atGetVehicleByVehicleId (vehicles : List AtVehicle) (vehicleId : String) :
    Option AtVehicle :=
  vehicles.find? fun v => v.vehicleId = vehicleId

def atUpdateVehicleByRecordId (vehicles : List AtVehicle) (recordId : String)
    (u : AtVehiclePatch) : List AtVehicle × Option AtVehicle :=
  match vehicles.find? fun v => v.airtableRecordId = recordId with
  | some v =>
    (vehicles.map fun w => if w.airtableRecordId = recordId then applyAtVehiclePatch w u else w,
      some (applyAtVehiclePatch v u))
  | none => (vehicles, none)

/-- `isValidVehicleId` from `routes/dealer.js`: `/^[a-zA-Z0-9_-]{3,60}$/`. -/
def isValidVehicleId (vehicleId : String) : Bool :=
  3 ≤ vehicleId.length ∧ vehicleId.length ≤ 60 ∧ vehicleId.data.all dealerIdChar

/-- The patch request body; numeric fields carry the result of
`cleanNum(Number(...))` (`none` for absent/non-finite), and
`Availability`/`archived` carry raw JSON values for the
`typeof`/`=== true` tests. -/
structure AtPatchBody where
  title : Option String := none
  status : Option String := none
  Make : Option String := none
  Model : Option String := none
  Year : Option Int := none
  VIN : Option String := none
  Price : Option Int := none
  Mileage : Option Int := none
  Color : Option String := none
  bodyTypeQ : Option String := none
  Transmission : Option String := none
  fuelTypeQ : Option String := none
  videoUrlsQ : Option String := none
  Description : Option String := none
  notesDescriptionQ : Option String := none
  cloudinaryImageUrls : Option String := none
  cloudinaryVideoUrl : Option String := none
  Availability : Option JsVal := none
  archived : Option JsVal := none
deriving DecidableEq, Repr

inductive AtVehicleRes where
  | okV (vehicle : AtVehicle)
  | failure (status : Nat) (error : String)
deriving DecidableEq, Repr

/-- The update payload of the dealer vehicle patch: `pickTruthy` over the
cleaned fields (modelled by `strOrUndef` on strings and identity on the
`cleanNum` numbers, with the `typeof === "boolean"` gate on
`Availability`), then `archived`/`status` forced only when
`req.body.archived === true` — never to `false`. -/
def patchFields (body : AtPatchBody) : AtVehiclePatch :=
  let base : AtVehiclePatch :=
    { title := strOrUndef (cleanStr body.title 160)
      status := strOrUndef (cleanStr body.status 40)
      Make := strOrUndef (cleanStr body.Make 80)
      Model := strOrUndef (cleanStr body.Model 80)
      Year := body.Year
      VIN := strOrUndef (cleanStr body.VIN 80)
      Price := body.Price
      Mileage := body.Mileage
      Color := strOrUndef (cleanStr body.Color 60)
      bodyTypeQ := strOrUndef (cleanStr body.bodyTypeQ 60)
      Transmission := strOrUndef (cleanStr body.Transmission 40)
      fuelTypeQ := strOrUndef (cleanStr body.fuelTypeQ 40)
      videoUrlsQ := strOrUndef (cleanStr body.videoUrlsQ 2000)
      Description := strOrUndef (cleanStr body.Description 4000)
      notesDescriptionQ := strOrUndef (cleanStr body.notesDescriptionQ 4000)
      cloudinaryImageUrls := strOrUndef (cleanStr body.cloudinaryImageUrls 20000)
      cloudinaryVideoUrl := strOrUndef (cleanStr body.cloudinaryVideoUrl 600)
      Availability := match body.Availability with
        | some (.vBool b) => some b
        | _ => none }
  if body.archived = some (.vBool true) then
    { base with archived := some true, status := some "archived" }
  else base

/-- `PATCH /api/dealer/vehicles/:vehicleId` from `routes/dealer.js`. -/
def patchDealerVehicle (vehicles : List AtVehicle) (userDealerId : String)
    (vehicleIdParam : String) (body : AtPatchBody) : AtVehicleRes × List AtVehicle :=
  if cleanStr (some vehicleIdParam) 80 = "" ∨ ¬ isValidVehicleId (cleanStr (some vehicleIdParam) 80) then
    (.failure 400 "Invalid vehicleId", vehicles)
  else
    match atGetVehicleByVehicleId vehicles (cleanStr (some vehicleIdParam) 80) with
    | none => (.failure 404 "Vehicle not found", vehicles)
    | some existing =>
      if cleanStr (some existing.dealerId) 60 ≠ userDealerId then
        (.failure 403 "Forbidden", vehicles)
      else
        match atUpdateVehicleByRecordId vehicles existing.airtableRecordId (patchFields body) with
        | (vs1, some v) => (.okV v, vs1)
        | (vs1, none) => (.failure 500 "Internal Server Error", vs1)

/-! ## Store lemmas -/

theorem applyProfilePatch_dealer_id (p : Profile) (u : ProfilePatch) :
    (applyProfilePatch p u).dealer_id = u.dealer_id := rfl

theorem find?_upsert_map (l : List Profile) (u : ProfilePatch) (p : Profile)
    (h : l.find? (fun q => q.dealer_id = u.dealer_id) = some p) :
    (l.map fun q => if q.dealer_id = u.dealer_id then applyProfilePatch q u else q).find?
      (fun q => q.dealer_id = u.dealer_id) = some (applyProfilePatch p u) := by
  induction l with
  | nil => simp at h
  | cons a rest ih =>
    by_cases ha : a.dealer_id = u.dealer_id
    · rw [List.find?_cons_of_pos _ (by simp [ha])] at h
      injection h with h
      subst h
      rw [List.map_cons, if_pos ha]
      exact List.find?_cons_of_pos _ (by simp [applyProfilePatch_dealer_id])
    · rw [List.find?_cons_of_neg _ (by simp [ha])] at h
      rw [List.map_cons, if_neg ha]
      rw [List.find?_cons_of_neg _ (by simp [ha])]
      exact ih h

theorem upsertProfile_lookup (db : DB) (u : ProfilePatch) :
    getProfileByDealerId (upsertProfile db u).1 u.dealer_id = some (upsertProfile db u).2 := by
  unfold upsertProfile getProfileByDealerId
  cases h : db.profiles.find? (fun q => q.dealer_id = u.dealer_id) with
  | none =>
    simp only [h]
    exact List.find?_cons_of_pos _ (by simp [newProfileFromPatch])
  | some p =>
    simpa only [h] using find?_upsert_map db.profiles u p h

theorem upsertProfile_status (db : DB) (u : ProfilePatch) (s : String)
    (h : u.status = some s) : ((upsertProfile db u).2).status = s := by
  unfold upsertProfile
  cases db.profiles.find? fun q => q.dealer_id = u.dealer_id <;>
    simp [applyProfilePatch, newProfileFromPatch, h]

theorem applyVehiclePatch_vehicle_id (v : Vehicle) (u : VehiclePatch)
    (h : u.vehicle_id = none) : (applyVehiclePatch v u).vehicle_id = v.vehicle_id := by
  simp [applyVehiclePatch, h]

theorem find?_updateVehicle_map (l : List Vehicle) (vid : String) (u : VehiclePatch)
    (hu : u.vehicle_id = none) (v : Vehicle)
    (h : l.find? (fun w => w.vehicle_id = vid) = some v) :
    (l.map fun w => if w.vehicle_id = vid then applyVehiclePatch w u else w).find?
      (fun w => w.vehicle_id = vid) = some (applyVehiclePatch v u) := by
  induction l with
  | nil => simp at h
  | cons a rest ih =>
    by_cases ha : a.vehicle_id = vid
    · rw [List.find?_cons_of_pos _ (by simp [ha])] at h
      injection h with h
      subst h
      rw [List.map_cons, if_pos ha]
      exact List.find?_cons_of_pos _ (by simp [applyVehiclePatch_vehicle_id _ _ hu, ha])
    · rw [List.find?_cons_of_neg _ (by simp [ha])] at h
      rw [List.map_cons, if_neg ha]
      rw [List.find?_cons_of_neg _ (by simp [ha])]
      exact ih h

/-! ## C9 -/

/-- C9: processing an `invoice.payment_failed` webhook event mutates no
persisted state: the data store (all profiles, vehicles and viewing
requests) after the handler equals the one before; only a failed-payment
e-mail may be attempted. -/
theorem invoice_payment_failed_writes_nothing (db : DB) (inv : StripeInvoice) :
    (handleInvoicePaymentFailed db inv).1 = db := by
  unfold handleInvoicePaymentFailed
  cases (if inv.customer ≠ "" then getProfileByStripeCustomerId db inv.customer else none) with
  | none => rfl
  | some d => by_cases he : d.profile_email ≠ "" <;> simp [he]

/-! ## C5 and C6 -/

/-- C5: a POST to `/api/public/dealer/:dealerId/requests` with
`requestType "wa"`, a non-empty customer name and a phone of at least 7
digits, targeting an existing dealer that is not paused, returns 201 with
a created request whose type is `"whatsapp"` and whose status is `"new"`. -/
theorem wa_request_created (db : DB) (dealerIdParam : String) (body : RequestBody)
    (uuid : String) (dealer : Profile)
    (hid : isValidDealerId (cleanStr (some dealerIdParam) 60) = true)
    (htype : body.requestType = some "wa")
    (hname : cleanStr body.customerName 120 ≠ "")
    (hphone : 7 ≤ ((normalizePhone body.phone).data.filter Char.isDigit).length)
    (hdealer : getProfileByDealerId db (cleanStr (some dealerIdParam) 60) = some dealer)
    (hpause : isPausedDealer dealer = false) :
    ∃ r : ViewingRequest,
      postPublicRequest db dealerIdParam body uuid =
        (.created r, { db with viewing_requests := r :: db.viewing_requests }) ∧
      r.type = "whatsapp" ∧ r.status = "new" := by
  have htype2 : mapRequestTypeToEnum body.requestType = some "whatsapp" := by
    rw [htype]; decide
  have hle := List.length_filter_le Char.isDigit (normalizePhone body.phone).data
  have hlen7 : ¬ (normalizePhone body.phone).length < 7 := by
    show ¬ (normalizePhone body.phone).data.length < 7
    omega
  have hpe : normalizePhone body.phone ≠ "" := by
    intro h
    rw [h] at hphone
    have h0 : (((("" : String)).data).filter Char.isDigit).length = 0 := rfl
    omega
  unfold postPublicRequest
  simp only [hid, htype2, hdealer, hpause, Bool.true_eq_false, not_true_eq_false,
    if_neg, Bool.false_eq_true, if_false]
  rw [if_neg hname, if_neg (by push_neg; exact ⟨hpe, Nat.not_lt.mp hlen7⟩ :
    ¬ (normalizePhone body.phone = "" ∨ (normalizePhone body.phone).length < 7))]
  exact ⟨_, rfl, rfl, rfl⟩

def dealerC5 : Profile :=
  { dealer_id := "DEALER-0001", name := "Demo Motors", status := "active" }

def dbC5 : DB := { profiles := [dealerC5] }

def bodyC5 : RequestBody :=
  { requestType := some "wa", customerName := some "John Doe", phone := some "+18761234567" }

theorem wa_request_created_witness :
    (postPublicRequest dbC5 "DEALER-0001" bodyC5 "req-1").1.statusCode = 201 := by
  obtain ⟨r, heq, -, -⟩ := wa_request_created dbC5 "DEALER-0001" bodyC5 "req-1" dealerC5
    (by decide) rfl (by decide) (by decide) (by decide) (by decide)
  rw [heq]
  rfl

/-- C6: a public viewing-request creation whose `requestType` does not
normalize into the closed enum `{whatsapp, live_video, walk_in}` is
answered with HTTP 400 and performs no data-store write (the store it
returns is the one it received, so no `createViewingRequest` insert
happened). -/
theorem invalid_request_type_rejected (db : DB) (dealerIdParam : String)
    (body : RequestBody) (uuid : String)
    (h : mapRequestTypeToEnum body.requestType = none) :
    (postPublicRequest db dealerIdParam body uuid).1.statusCode = 400 ∧
    (postPublicRequest db dealerIdParam body uuid).2 = db := by
  unfold postPublicRequest
  by_cases hv : isValidDealerId (cleanStr (some dealerIdParam) 60)
  · simp [hv, h, CreateRequestRes.statusCode]
  · simp [hv, CreateRequestRes.statusCode]

theorem invalid_request_type_rejected_witness :
    (postPublicRequest dbC5 "DEALER-0001" { requestType := some "teleport" } "req-2").1.statusCode
        = 400 ∧
    (postPublicRequest dbC5 "DEALER-0001" { requestType := some "teleport" } "req-2").2 = dbC5 :=
  invalid_request_type_rejected dbC5 "DEALER-0001" { requestType := some "teleport" } "req-2"
    (by decide)

/-! ## C2 -/

theorem applyVehiclePatch_archive_idem (w : Vehicle) :
    applyVehiclePatch (applyVehiclePatch w { archived := some true, status := some "archived" })
      { archived := some true, status := some "archived" } =
    applyVehiclePatch w { archived := some true, status := some "archived" } := rfl

theorem archiveVehicle_idem (db : DB) (vid : String) :
    archiveVehicle (archiveVehicle db vid).1 vid = archiveVehicle db vid := by
  unfold archiveVehicle updateVehicleByVehicleId
  cases h : db.vehicles.find? (fun w => w.vehicle_id = vid) with
  | none => simp [h]
  | some v =>
    simp only [h]
    have hf := find?_updateVehicle_map db.vehicles vid
      { archived := some true, status := some "archived" } rfl v h
    simp only [hf]
    have hmap : ((db.vehicles.map fun w =>
        if w.vehicle_id = vid then
          applyVehiclePatch w { archived := some true, status := some "archived" } else w).map
          fun w => if w.vehicle_id = vid then
            applyVehiclePatch w { archived := some true, status := some "archived" } else w) =
        db.vehicles.map fun w =>
          if w.vehicle_id = vid then
            applyVehiclePatch w { archived := some true, status := some "archived" } else w := by
      rw [List.map_map]
      apply List.map_congr_left
      intro w _
      by_cases hw : w.vehicle_id = vid
      · simp [Function.comp, hw, applyVehiclePatch_vehicle_id, applyVehiclePatch_archive_idem]
      · simp [Function.comp, hw]
    rw [hmap, applyVehiclePatch_archive_idem]

theorem patchFields_archived (body : AtPatchBody) :
    (patchFields body).archived = none ∨ (patchFields body).archived = some true := by
  unfold patchFields
  by_cases hb : body.archived = some (.vBool true) <;> simp [hb]

theorem atUpdate_archived_monotone (vehicles : List AtVehicle) (rid : String)
    (u : AtVehiclePatch) (hu : u.archived = none ∨ u.archived = some true) :
    List.Forall₂ (fun v v' => v.archived = true → v'.archived = true) vehicles
      (atUpdateVehicleByRecordId vehicles rid u).1 := by
  unfold atUpdateVehicleByRecordId
  cases vehicles.find? (fun v => v.airtableRecordId = rid) with
  | none => exact List.forall₂_same.mpr fun x _ => id
  | some v =>
    simp only
    rw [List.forall₂_map_right_iff]
    apply List.forall₂_same.mpr
    intro x _
    by_cases hx : x.airtableRecordId = rid
    · intro hax
      rcases hu with hu | hu <;> simp [hx, applyAtVehiclePatch, hu, hax]
    · intro hax
      simpa [hx] using hax

theorem patch_store_is_update_fst (vehicles : List AtVehicle) (rid : String)
    (u : AtVehiclePatch) :
    (match atUpdateVehicleByRecordId vehicles rid u with
      | (vs1, some v) => (AtVehicleRes.okV v, vs1)
      | (vs1, none) => (AtVehicleRes.failure 500 "Internal Server Error", vs1)).2 =
    (atUpdateVehicleByRecordId vehicles rid u).1 := by
  rcases atUpdateVehicleByRecordId vehicles rid u with ⟨vs1, _ | v⟩ <;> rfl

/-- C2 (amended): archiving is idempotent (a second archive of the same
vehicle is a no-op on the store and returns the same row), and the
dealer-facing PATCH path keeps `archived` monotone: every row that was
archived before the patch is still archived after it.  (The Supabase
create-or-update POST path does not share this guarantee; see the
counterexample.) -/
theorem archive_idempotent_and_patch_monotone :
    (∀ (db : DB) (vid : String),
      archiveVehicle (archiveVehicle db vid).1 vid = archiveVehicle db vid) ∧
    (∀ (vehicles : List AtVehicle) (uid param : String) (body : AtPatchBody),
      List.Forall₂ (fun v v' => v.archived = true → v'.archived = true) vehicles
        (patchDealerVehicle vehicles uid param body).2) := by
  refine ⟨archiveVehicle_idem, fun vehicles uid param body => ?_⟩
  have hrefl : List.Forall₂ (fun v v' : AtVehicle => v.archived = true → v'.archived = true)
      vehicles vehicles := List.forall₂_same.mpr fun x _ => id
  unfold patchDealerVehicle
  by_cases h1 : cleanStr (some param) 80 = "" ∨ ¬ isValidVehicleId (cleanStr (some param) 80) = true
  · rw [if_pos h1]
    exact hrefl
  · rw [if_neg h1]
    cases atGetVehicleByVehicleId vehicles (cleanStr (some param) 80) with
    | none => exact hrefl
    | some existing =>
      dsimp only
      by_cases h2 : cleanStr (some existing.dealerId) 60 ≠ uid
      · rw [if_pos h2]
        exact hrefl
      · rw [if_neg h2]
        rw [patch_store_is_update_fst]
        exact atUpdate_archived_monotone vehicles existing.airtableRecordId (patchFields body)
          (patchFields_archived body)

/-- The archived vehicle and the unarchiving request body of the C2
counterexample. -/
def vehicleC2 : Vehicle :=
  { dealer_id := "DEALER-0001", vehicle_id := "VEH-1", title := "Old car",
    status := "archived", availability := false, archived := true }

def dbC2 : DB := { vehicles := [vehicleC2] }

def bodyC2 : VehicleBody := { vehicleId := some "VEH-1", archived := some (.vBool false) }

/-- C2 (counterexample): the vehicle starts archived, yet the dealer-facing
create-or-update POST (`server.js`), called by its owner with
`archived: false` in the body, writes `archived = false` back — so the
claim that no dealer-facing update can revert `archived` fails on that
path. -/
theorem post_vehicles_unarchives :
    vehicleC2.archived = true ∧
    (getVehicleByVehicleId (postDealerVehicles dbC2 "DEALER-0001" bodyC2).2 "VEH-1").map
      Vehicle.archived = some false := by decide

theorem archive_idempotent_witness :
    archiveVehicle (archiveVehicle dbC2 "VEH-1").1 "VEH-1" = archiveVehicle dbC2 "VEH-1" :=
  archive_idempotent_and_patch_monotone.1 dbC2 "VEH-1"

/-! ## C1 -/

theorem upsert_paused_lookup (db0 : DB) (did : String) :
    (getProfileByDealerId (upsertProfile db0 { dealer_id := did, status := some "paused" }).1 did).map
      Profile.status = some "paused" := by
  have h1 := upsertProfile_lookup db0 { dealer_id := did, status := some "paused" }
  rw [h1]
  simp [upsertProfile_status db0 { dealer_id := did, status := some "paused" } "paused" rfl]

/-- C1 (amended): a `customer.subscription.deleted` event with status
`canceled` pauses the matched dealer profile and attempts a suspension
e-mail only on the direct-lookup branch: when no checkout session is
located (`latest_invoice` absent, or the session list returns nothing) and
a dealer matches by customer/subscription id, the profile status is forced
to `paused`, and exactly one suspension e-mail is attempted iff the
matched profile has an e-mail address.  (When a checkout session is found
the event is handled by provisioning, which neither pauses nor mails; see
the counterexample.) -/
theorem subscription_canceled_pauses_matched_dealer
    (db : DB) (sub : StripeSubscription) (sessionLookup : Option CheckoutSession)
    (rand : RandomInputs) (now : Int) (d : Profile)
    (hstatus : sub.status = "canceled")
    (hsession : (if sub.latest_invoice ≠ "" then sessionLookup else none) = none)
    (hdealer : subscriptionDealerLookup db sub = some d) :
    (getProfileByDealerId (handleSubscriptionEvent db sub sessionLookup rand now).1
        d.dealer_id).map Profile.status = some "paused" ∧
    ((handleSubscriptionEvent db sub sessionLookup rand now).2.filter
        EmailMsg.isSuspensionNotice).length = (if d.profile_email ≠ "" then 1 else 0) := by
  simp only [handleSubscriptionEvent, hsession, hdealer, hstatus]
  rw [if_pos (Or.inl trivial)]
  constructor
  · exact upsert_paused_lookup _ _
  · by_cases he : d.profile_email ≠ "" <;> simp [he, EmailMsg.isSuspensionNotice]

/-- The matched dealer of the C1 scenario. -/
def dealerC1 : Profile :=
  { dealer_id := "DEALER-0001", name := "Demo Motors", status := "active",
    profile_email := "owner@demo.test", stripe_customer_id := "cus_1",
    stripe_subscription_id := "sub_1", stripe_subscription_status := "trialing" }

def dbC1 : DB := { profiles := [dealerC1] }

/-- A canceled subscription whose `latest_invoice` is set, so the handler
finds a checkout session. -/
def subC1 : StripeSubscription :=
  { id := "sub_1", customer := "cus_1", status := "canceled", latest_invoice := "in_1" }

def sessC1 : CheckoutSession := { customer := "cus_1", subscription := "sub_1" }

theorem subscription_canceled_pauses_matched_dealer_witness :
    (getProfileByDealerId
        (handleSubscriptionEvent dbC1 { subC1 with latest_invoice := "" } none {} 0).1
        "DEALER-0001").map Profile.status = some "paused" ∧
    ((handleSubscriptionEvent dbC1 { subC1 with latest_invoice := "" } none {} 0).2.filter
        EmailMsg.isSuspensionNotice).length = (if dealerC1.profile_email ≠ "" then 1 else 0) :=
  subscription_canceled_pauses_matched_dealer dbC1 { subC1 with latest_invoice := "" } none {} 0
    dealerC1 rfl (by decide) (by decide)

/-- C1 (counterexample): the same canceled-subscription event delivered
with a locatable checkout session takes the provisioning branch: the
matched dealer's status stays `active` and no suspension e-mail is
attempted, falsifying the claim that the event always pauses the profile
with exactly one suspension e-mail. -/
theorem subscription_canceled_session_branch_no_pause :
    subC1.status = "canceled" ∧
    (getProfileByDealerId (handleSubscriptionEvent dbC1 subC1 (some sessC1) {} 0).1
        "DEALER-0001").map Profile.status = some "active" ∧
    ((handleSubscriptionEvent dbC1 subC1 (some sessC1) {} 0).2.filter
        EmailMsg.isSuspensionNotice).length = 0 := by decide

/-! ## C4 -/

theorem findFreeCandidate_found (db : DB) (start k i : Nat) (hik : i < k)
    (hfree : (getProfileByDealerId db (dealerCandidate (start + i))).isNone = true)
    (htaken : ∀ j, j < i → (getProfileByDealerId db (dealerCandidate (start + j))).isNone = false) :
    findFreeCandidate db start k = some (dealerCandidate (start + i)) := by
  induction k generalizing start i with
  | zero => omega
  | succ k ih =>
    by_cases h0 : (getProfileByDealerId db (dealerCandidate start)).isNone
    · have hi0 : i = 0 := by
        by_contra hne
        have ht := htaken 0 (by omega)
        rw [Nat.add_zero] at ht
        rw [h0] at ht
        exact Bool.true_eq_false.mp ht
      subst hi0
      rw [Nat.add_zero] at hfree ⊢
      simp [findFreeCandidate, h0]
    · have hi0 : i ≠ 0 := by
        intro h
        subst h
        rw [Nat.add_zero] at hfree
        exact h0 hfree
      have harg : start + 1 + (i - 1) = start + i := by omega
      have hx := ih (start + 1) (i - 1) (by omega)
        (by rw [harg]; exact hfree)
        (fun j hj => by
          have ht := htaken (j + 1) (by omega)
          rw [show start + 1 + j = start + (j + 1) from by omega]
          exact ht)
      rw [harg] at hx
      simp [findFreeCandidate, h0, hx]

theorem findFreeCandidate_none (db : DB) (start k : Nat)
    (h : ∀ i, i < k → (getProfileByDealerId db (dealerCandidate (start + i))).isNone = false) :
    findFreeCandidate db start k = none := by
  induction k generalizing start with
  | zero => rfl
  | succ k ih =>
    have h0 := h 0 (by omega)
    rw [Nat.add_zero] at h0
    simp [findFreeCandidate, h0]
    exact ih (start + 1) (fun i hi => by
      have ht := h (i + 1) (by omega)
      rw [show start + 1 + i = start + (i + 1) from by omega]
      exact ht)

theorem upsertProfile_trial (db : DB) (u : ProfilePatch) (t : Option Int)
    (h : u.trial_ends_at = some t) : ((upsertProfile db u).2).trial_ends_at = t := by
  unfold upsertProfile
  cases db.profiles.find? fun q => q.dealer_id = u.dealer_id <;>
    simp [applyProfilePatch, newProfileFromPatch, h]

theorem provision_trial_ends_at (db : DB) (sess : CheckoutSession)
    (sub : Option StripeSubscription) (po : Option String) (rand : RandomInputs)
    (now : Int) (p : Profile) (pc : Option String)
    (hres : (provisionDealerFromStripe db (some sess) sub po rand now).result = some (p, pc)) :
    p.trial_ends_at = some ((subscriptionTrialEndMs sub).getD (now + 14 * 24 * 60 * 60 * 1000)) := by
  unfold provisionDealerFromStripe at hres
  dsimp only at hres
  cases hd : provisionDealerLookup db sess.customer
      (jsOrS sess.subscription ((sub.map fun s => s.id).getD "")) with
  | none =>
    rw [hd] at hres
    dsimp only at hres
    injection hres with hres
    have hp := congrArg Prod.fst hres
    dsimp only at hp
    subst hp
    rw [upsertProfile_trial db _ _ rfl]
    cases subscriptionTrialEndMs sub <;> rfl
  | some d =>
    rw [hd] at hres
    dsimp only at hres
    injection hres with hres
    have hp := congrArg Prod.fst hres
    dsimp only at hp
    subst hp
    rw [upsertProfile_trial db _ _ rfl]
    cases subscriptionTrialEndMs sub <;> rfl

/-- C4: provisioning generates the next sequential dealer id: with `n` the
number scanned from the latest `DEALER-nnnn` plus one, the generated id is
`DEALER-` plus `n + i` zero-padded to four digits for the smallest
`i < 50` whose candidate has no existing profile, falling back to the
random id only when all 50 candidates are taken; and the provisioned
profile's `trial_ends_at` is the subscription's (truthy) `trial_end`,
otherwise `now` plus 14 days. -/
theorem next_dealer_id_and_trial_defaults :
    (∀ (db : DB) (uuid8 : String) (i : Nat), i < 50 →
      (getProfileByDealerId db (dealerCandidate (nextDealerNumber db + i))).isNone = true →
      (∀ j, j < i →
        (getProfileByDealerId db (dealerCandidate (nextDealerNumber db + j))).isNone = false) →
      generateNextDealerId db uuid8 = dealerCandidate (nextDealerNumber db + i)) ∧
    (∀ (db : DB) (uuid8 : String),
      (∀ i, i < 50 →
        (getProfileByDealerId db (dealerCandidate (nextDealerNumber db + i))).isNone = false) →
      generateNextDealerId db uuid8 = "DEALER-" ++ uuid8) ∧
    (∀ (db : DB) (sess : CheckoutSession) (s : StripeSubscription) (po : Option String)
      (rand : RandomInputs) (now t : Int) (p : Profile) (pc : Option String),
      s.trial_end = some t → t ≠ 0 →
      (provisionDealerFromStripe db (some sess) (some s) po rand now).result = some (p, pc) →
      p.trial_ends_at = some (t * 1000)) ∧
    (∀ (db : DB) (sess : CheckoutSession) (sub : Option StripeSubscription) (po : Option String)
      (rand : RandomInputs) (now : Int) (p : Profile) (pc : Option String),
      subscriptionTrialEndMs sub = none →
      (provisionDealerFromStripe db (some sess) sub po rand now).result = some (p, pc) →
      p.trial_ends_at = some (now + 14 * 24 * 60 * 60 * 1000)) := by
  refine ⟨?_, ?_, ?_, ?_⟩
  · intro db uuid8 i hik hfree htaken
    unfold generateNextDealerId
    rw [findFreeCandidate_found db (nextDealerNumber db) 50 i hik hfree htaken]
  · intro db uuid8 h
    unfold generateNextDealerId
    rw [findFreeCandidate_none db (nextDealerNumber db) 50 h]
  · intro db sess s po rand now t p pc hte htnz hres
    have h := provision_trial_ends_at db sess (some s) po rand now p pc hres
    rw [h]
    simp [subscriptionTrialEndMs, hte, htnz]
  · intro db sess sub po rand now p pc hte hres
    have h := provision_trial_ends_at db sess sub po rand now p pc hres
    rw [h, hte]
    rfl

def dbC4 : DB := { profiles := [{ dealer_id := "DEALER-0001" }] }

theorem next_dealer_id_witness : generateNextDealerId dbC4 "AB12CD34" = "DEALER-0002" := by
  rw [next_dealer_id_and_trial_defaults.1 dbC4 "AB12CD34" 0 (by decide) (by decide)
    (fun j hj => absurd hj (Nat.not_lt_zero j))]
  decide

/-! ## C10 -/

theorem isSubscriptionActive_false_iff (d : Profile) (now : Int) :
    isSubscriptionActive (some d) now = false ↔
      (jsToLower (cleanStr (some d.stripe_subscription_status) 40) ≠ "" ∧
       jsToLower (cleanStr (some d.stripe_subscription_status) 40) ≠ "active" ∧
       jsToLower (cleanStr (some d.stripe_subscription_status) 40) ≠ "trialing" ∧
       ∀ t, d.trial_ends_at = some t → t ≤ now) := by
  unfold isSubscriptionActive
  by_cases h1 : jsToLower (cleanStr (some d.stripe_subscription_status) 40) = ""
  · simp [h1]
  · by_cases h2 : jsToLower (cleanStr (some d.stripe_subscription_status) 40) = "active" ∨
        jsToLower (cleanStr (some d.stripe_subscription_status) 40) = "trialing"
    · rcases h2 with h2 | h2 <;> simp [h1, h2]
    · push_neg at h2
      cases ht : d.trial_ends_at with
      | none => simp [h1, h2.1, h2.2, ht]
      | some t =>
        simp only [h1, h2.1, h2.2, ht, if_neg, ite_false, ne_eq, not_false_eq_true,
          true_and, if_false]
        constructor
        · intro hb t' ht'
          injection ht' with ht'
          subst ht'
          simp at hb
          omega
        · intro hall
          have := hall t rfl
          simp
          omega

theorem login_402_only_if_inactive (db : DB) (body : LoginBody) (now : Int)
    (hact : ∀ d, loginLookup db body = some d → isSubscriptionActive (some d) now = true) :
    (postDealerLogin db body now).statusCode ≠ 402 := by
  intro h402
  unfold postDealerLogin at h402
  repeat' split at h402
  any_goals simp [LoginRes.statusCode] at h402
  all_goals simp_all

theorem isSubscriptionActive_of_empty_status (d : Profile) (now : Int)
    (h : jsToLower (cleanStr (some d.stripe_subscription_status) 40) = "") :
    isSubscriptionActive (some d) now = true := by
  unfold isSubscriptionActive
  simp [h]

/-- C10: a profile whose stored `stripe_subscription_status` is empty (or
missing, read back as empty) is treated as actively subscribed, so neither
the login handler nor the `requireActiveDealer` gate can answer 402 for
it; and the gate answers 402 exactly for a found, unpaused dealer whose
non-empty status is outside `{active, trialing}` and whose
`trial_ends_at` is absent (or unparseable) or not in the future. -/
theorem empty_subscription_status_never_402 :
    (∀ (d : Profile) (now : Int),
      jsToLower (cleanStr (some d.stripe_subscription_status) 40) = "" →
      isSubscriptionActive (some d) now = true) ∧
    (∀ (db : DB) (uid : String) (now : Int),
      requireActiveDealerCheck db uid now = some 402 ↔
        ∃ d, getProfileByDealerId db (cleanStr (some uid) 60) = some d ∧
          isPausedDealer d = false ∧
          jsToLower (cleanStr (some d.stripe_subscription_status) 40) ≠ "" ∧
          jsToLower (cleanStr (some d.stripe_subscription_status) 40) ≠ "active" ∧
          jsToLower (cleanStr (some d.stripe_subscription_status) 40) ≠ "trialing" ∧
          ∀ t, d.trial_ends_at = some t → t ≤ now) ∧
    (∀ (db : DB) (body : LoginBody) (now : Int),
      (∀ d, loginLookup db body = some d →
        jsToLower (cleanStr (some d.stripe_subscription_status) 40) = "") →
      (postDealerLogin db body now).statusCode ≠ 402) := by
  refine ⟨isSubscriptionActive_of_empty_status, ?_, ?_⟩
  · intro db uid now
    unfold requireActiveDealerCheck
    dsimp only
    cases hl : getProfileByDealerId db (cleanStr (some uid) 60) with
    | none => simp
    | some d =>
      dsimp only
      have hiff := isSubscriptionActive_false_iff d now
      by_cases hp : isPausedDealer d
      · simp [hp]
      · by_cases ha : isSubscriptionActive (some d) now = false
        · simp [hp, ha, hiff.mp ha]
          exact (hiff.mp ha).2.2.2
        · have hat : isSubscriptionActive (some d) now = true := by
            cases hb : isSubscriptionActive (some d) now
            · exact absurd hb ha
            · rfl
          simp only [hp, hat, Bool.false_eq_true, if_false, not_true_eq_false, if_neg,
            Bool.true_eq_false, ite_false]
          constructor
          · intro hx
            simp at hx
          · rintro ⟨d', hd', -, hne, hna, hnt, hall⟩
            injection hd' with hd'
            subst hd'
            exact absurd (hiff.mpr ⟨hne, hna, hnt, hall⟩) (by simp [hat])
  · intro db body now h
    exact login_402_only_if_inactive db body now
      (fun d hl => isSubscriptionActive_of_empty_status d now (h d hl))

def dealerC10 : Profile :=
  { dealer_id := "DEALER-0009", status := "active",
    stripe_subscription_status := "past_due", trial_ends_at := none }

theorem empty_subscription_status_never_402_witness :
    isSubscriptionActive (some { dealer_id := "DEALER-0008" }) 0 = true ∧
    requireActiveDealerCheck { profiles := [dealerC10] } "DEALER-0009" 0 = some 402 :=
  ⟨empty_subscription_status_never_402.1 { dealer_id := "DEALER-0008" } 0 (by decide),
    (empty_subscription_status_never_402.2.1 { profiles := [dealerC10] } "DEALER-0009" 0).mpr
      ⟨dealerC10, by decide, by decide, by decide, by decide, by decide,
        fun t ht => nomatch ht⟩⟩

/-! ## C7 -/

theorem tokenGet_of_key_val (l : List (String × ResetData)) (k : String) (v : ResetData)
    (hex : ∃ e ∈ l, e.1 = k) (hall : ∀ e ∈ l, e.1 = k → e.2 = v) :
    tokenGet l k = some v := by
  induction l with
  | nil => simp at hex
  | cons a rest ih =>
    by_cases ha : a.1 = k
    · unfold tokenGet
      rw [List.find?_cons_of_pos _ (by simp [ha])]
      simp [hall a (List.mem_cons_self a rest) ha]
    · unfold tokenGet at ih ⊢
      rw [List.find?_cons_of_neg _ (by simp [ha])]
      apply ih
      · rcases hex with ⟨e, he, hek⟩
        rcases List.mem_cons.mp he with rfl | he'
        · exact absurd hek ha
        · exact ⟨e, he', hek⟩
      · exact fun e he => hall e (List.mem_cons_of_mem _ he)

theorem tokenSet_all_and_mem (toks : List (String × ResetData)) (k : String) (v : ResetData) :
    (∀ e ∈ tokenSet toks k v, e.1 = k → e.2 = v) ∧ ∃ e ∈ tokenSet toks k v, e.1 = k := by
  unfold tokenSet
  by_cases h : toks.any fun e => e.1 = k
  · rw [if_pos h]
    constructor
    · intro e he hek
      rcases List.mem_map.mp he with ⟨a, _, rfl⟩
      by_cases hak : a.1 = k
      · simp [hak]
      · rw [if_neg hak] at hek ⊢
        exact absurd hek hak
    · rcases List.any_eq_true.mp h with ⟨a, ha, hak⟩
      refine ⟨(k, v), List.mem_map.mpr ⟨a, ha, ?_⟩, rfl⟩
      rw [if_pos (by simpa using hak)]
  · rw [if_neg h]
    constructor
    · intro e he hek
      rcases List.mem_append.mp he with he' | he'
      · exact absurd (List.any_eq_true.mpr ⟨e, he', by simpa using hek⟩) h
      · rcases List.mem_singleton.mp he' with rfl
        rfl
    · exact ⟨(k, v), List.mem_append.mpr (Or.inr (List.mem_singleton.mpr rfl)), rfl⟩

theorem tokenGet_delete (toks : List (String × ResetData)) (k : String) :
    tokenGet (tokenDelete toks k) k = none := by
  unfold tokenGet tokenDelete
  rw [List.find?_eq_none.mpr]
  · rfl
  · intro e he
    have := (List.mem_filter.mp he).2
    simpa using this

theorem upsertProfile_password (db : DB) (u : ProfilePatch) (pw : String)
    (h : u.password = some pw) : ((upsertProfile db u).2).password = pw := by
  unfold upsertProfile
  cases db.profiles.find? fun q => q.dealer_id = u.dealer_id <;>
    simp [applyProfilePatch, newProfileFromPatch, h]

theorem upsert_password_lookup (db0 : DB) (did pw : String) :
    (getProfileByDealerId (upsertProfile db0 { dealer_id := did, password := some pw }).1 did).map
      Profile.password = some pw := by
  have h1 := upsertProfile_lookup db0 { dealer_id := did, password := some pw }
  rw [h1]
  simp [upsertProfile_password db0 { dealer_id := did, password := some pw } pw rfl]

theorem hexChar_mem : ∀ n < 16, hexChar n ∈ "0123456789abcdef".data := by decide

theorem reset_token_format (bytes : List Nat) (h32 : bytes.length = 32)
    (hb : ∀ x ∈ bytes, x < 256) :
    (generateResetToken bytes).length = 64 ∧
    ∀ c ∈ (generateResetToken bytes).data, c ∈ "0123456789abcdef".data := by
  constructor
  · show (hexEncode bytes).length = 64
    rw [hexEncode_length, h32]
  · intro c hc
    rcases List.mem_flatMap.mp hc with ⟨b, hbm, hcm⟩
    have hblt := hb b hbm
    simp only [List.mem_cons, List.not_mem_nil, or_false] at hcm
    rcases hcm with rfl | rfl
    · exact hexChar_mem (b / 16) (by omega)
    · exact hexChar_mem (b % 16) (by omega)

theorem request_reset_token_stored (db : DB) (toks : List (String × ResetData))
    (email : Option String) (bytes : List Nat) (now : Int) (dealer : Profile)
    (hv : isValidEmail (cleanStr email 120) = true)
    (hd : getProfileByEmail db (cleanStr email 120) = some dealer) :
    tokenGet (postDealerRequestReset db toks email bytes now).2.1 (generateResetToken bytes) =
      some { dealerId := dealer.dealer_id, email := dealer.profile_email,
             expiresAt := now + 60 * 60 * 1000 } := by
  have hne : cleanStr email 120 ≠ "" := by
    intro h
    rw [h] at hv
    exact absurd hv (by decide)
  unfold postDealerRequestReset
  rw [if_neg (by push_neg; exact ⟨hne, by simp [hv]⟩), hd]
  dsimp only
  obtain ⟨hall, e0, he0, hek0⟩ := tokenSet_all_and_mem toks (generateResetToken bytes)
    { dealerId := dealer.dealer_id, email := dealer.profile_email,
      expiresAt := now + 60 * 60 * 1000 }
  apply tokenGet_of_key_val
  · refine ⟨e0, List.mem_filter.mpr ⟨he0, ?_⟩, hek0⟩
    rw [hall e0 he0 hek0]
    simp
  · intro e he hek
    exact hall e (List.mem_filter.mp he).1 hek

theorem reset_passcode_success (db : DB) (toks : List (String × ResetData))
    (tok pc : Option String) (now : Int) (rd : ResetData)
    (htok : cleanStr tok 100 ≠ "")
    (hget : tokenGet toks (cleanStr tok 100) = some rd)
    (hunexp : ¬ rd.expiresAt < now)
    (hpc : cleanStr pc 120 ≠ "" ∧ ¬ (cleanStr pc 120).length < 6) :
    (postDealerResetPasscode db toks tok pc now).1.status = 200 ∧
    tokenGet (postDealerResetPasscode db toks tok pc now).2.2 (cleanStr tok 100) = none ∧
    (getProfileByDealerId (postDealerResetPasscode db toks tok pc now).2.1 rd.dealerId).map
      Profile.password = some (cleanStr pc 120) := by
  unfold postDealerResetPasscode
  rw [if_neg htok, if_neg (by push_neg; exact ⟨hpc.1, Nat.not_lt.mp hpc.2⟩), hget]
  dsimp only
  rw [if_neg hunexp]
  exact ⟨rfl, tokenGet_delete toks (cleanStr tok 100),
    upsert_password_lookup db rd.dealerId (cleanStr pc 120)⟩

theorem reset_passcode_invalid_token (db : DB) (toks : List (String × ResetData))
    (tok pc : Option String) (now : Int)
    (hget : tokenGet toks (cleanStr tok 100) = none) :
    (postDealerResetPasscode db toks tok pc now).1.status = 400 ∧
    (postDealerResetPasscode db toks tok pc now).2.1 = db ∧
    (postDealerResetPasscode db toks tok pc now).2.2 = toks := by
  unfold postDealerResetPasscode
  by_cases h1 : cleanStr tok 100 = ""
  · rw [if_pos h1]
    exact ⟨rfl, rfl, rfl⟩
  · rw [if_neg h1]
    by_cases h2 : cleanStr pc 120 = "" ∨ (cleanStr pc 120).length < 6
    · rw [if_pos h2]
      exact ⟨rfl, rfl, rfl⟩
    · rw [if_neg h2, hget]
      exact ⟨rfl, rfl, rfl⟩

/-- C7: the passcode-reset flow is single-use with a one-hour expiry:
reset tokens are 32 random bytes hex-encoded (64 hex characters); a
request stores the token with `expiresAt = now + 1 hour`; the reset
endpoint rewrites the passcode only for a stored, unexpired token and
deletes the token, so the same token presented again yields 400 and
changes neither the profiles nor the token store; any token absent from
the store yields 400 with no state change. -/
theorem passcode_reset_single_use :
    (∀ bytes : List Nat, bytes.length = 32 → (∀ x ∈ bytes, x < 256) →
      (generateResetToken bytes).length = 64 ∧
      ∀ c ∈ (generateResetToken bytes).data, c ∈ "0123456789abcdef".data) ∧
    (∀ (db : DB) (toks : List (String × ResetData)) (email : Option String)
      (bytes : List Nat) (now : Int) (dealer : Profile),
      isValidEmail (cleanStr email 120) = true →
      getProfileByEmail db (cleanStr email 120) = some dealer →
      tokenGet (postDealerRequestReset db toks email bytes now).2.1 (generateResetToken bytes) =
        some { dealerId := dealer.dealer_id, email := dealer.profile_email,
               expiresAt := now + 60 * 60 * 1000 }) ∧
    (∀ (db : DB) (toks : List (String × ResetData)) (tok pc : Option String) (now : Int)
      (rd : ResetData),
      cleanStr tok 100 ≠ "" →
      tokenGet toks (cleanStr tok 100) = some rd →
      ¬ rd.expiresAt < now →
      cleanStr pc 120 ≠ "" ∧ ¬ (cleanStr pc 120).length < 6 →
      (postDealerResetPasscode db toks tok pc now).1.status = 200 ∧
      tokenGet (postDealerResetPasscode db toks tok pc now).2.2 (cleanStr tok 100) = none ∧
      (getProfileByDealerId (postDealerResetPasscode db toks tok pc now).2.1 rd.dealerId).map
        Profile.password = some (cleanStr pc 120)) ∧
    (∀ (db : DB) (toks : List (String × ResetData)) (tok pc : Option String) (now : Int),
      tokenGet toks (cleanStr tok 100) = none →
      (postDealerResetPasscode db toks tok pc now).1.status = 400 ∧
      (postDealerResetPasscode db toks tok pc now).2.1 = db ∧
      (postDealerResetPasscode db toks tok pc now).2.2 = toks) ∧
    (∀ (db : DB) (toks : List (String × ResetData)) (tok pc pc2 : Option String) (now now2 : Int)
      (rd : ResetData),
      cleanStr tok 100 ≠ "" →
      tokenGet toks (cleanStr tok 100) = some rd →
      ¬ rd.expiresAt < now →
      cleanStr pc 120 ≠ "" ∧ ¬ (cleanStr pc 120).length < 6 →
      (postDealerResetPasscode (postDealerResetPasscode db toks tok pc now).2.1
          (postDealerResetPasscode db toks tok pc now).2.2 tok pc2 now2).1.status = 400 ∧
      (postDealerResetPasscode (postDealerResetPasscode db toks tok pc now).2.1
          (postDealerResetPasscode db toks tok pc now).2.2 tok pc2 now2).2.1 =
        (postDealerResetPasscode db toks tok pc now).2.1 ∧
      (postDealerResetPasscode (postDealerResetPasscode db toks tok pc now).2.1
          (postDealerResetPasscode db toks tok pc now).2.2 tok pc2 now2).2.2 =
        (postDealerResetPasscode db toks tok pc now).2.2) := by
  refine ⟨reset_token_format, request_reset_token_stored, reset_passcode_success,
    reset_passcode_invalid_token, ?_⟩
  intro db toks tok pc pc2 now now2 rd htok hget hunexp hpc
  have hdel := (reset_passcode_success db toks tok pc now rd htok hget hunexp hpc).2.1
  exact reset_passcode_invalid_token _ _ tok pc2 now2 hdel

def dealerC7 : Profile :=
  { dealer_id := "DEALER-0007", profile_email := "owner@seven.test", password := "oldpass" }

def dbC7 : DB := { profiles := [dealerC7] }

def rdC7 : ResetData :=
  { dealerId := "DEALER-0007", email := "owner@seven.test", expiresAt := 99 }

theorem passcode_reset_single_use_witness :
    (postDealerResetPasscode
        (postDealerResetPasscode dbC7 [("tok-7", rdC7)] (some "tok-7") (some "newpass7") 10).2.1
        (postDealerResetPasscode dbC7 [("tok-7", rdC7)] (some "tok-7") (some "newpass7") 10).2.2
        (some "tok-7") (some "newpass8") 20).1.status = 400 :=
  (passcode_reset_single_use.2.2.2.2 dbC7 [("tok-7", rdC7)] (some "tok-7") (some "newpass7")
    (some "newpass8") 10 20 rdC7 (by decide) (by decide) (by decide) ⟨by decide, by decide⟩).1

/-! ## C8 -/

/-- C8: a passcode-reset request with the same well-formed e-mail returns
the identical HTTP reply (status, ok flag and message) whether or not a
matching dealer account exists — the generic success message — so the
response does not reveal account existence. -/
theorem request_reset_no_enumeration (dbA dbB : DB) (email : Option String)
    (bytesA bytesB : List Nat) (nowA nowB : Int)
    (toksA toksB : List (String × ResetData)) (d : Profile)
    (hvalid : isValidEmail (cleanStr email 120) = true)
    (hsome : getProfileByEmail dbA (cleanStr email 120) = some d)
    (hnone : getProfileByEmail dbB (cleanStr email 120) = none) :
    (postDealerRequestReset dbA toksA email bytesA nowA).1 =
      (postDealerRequestReset dbB toksB email bytesB nowB).1 := by
  have hne : cleanStr email 120 ≠ "" := by
    intro h
    rw [h] at hvalid
    exact absurd hvalid (by decide)
  unfold postDealerRequestReset
  rw [if_neg (by push_neg; exact ⟨hne, by simp [hvalid]⟩),
    if_neg (by push_neg; exact ⟨hne, by simp [hvalid]⟩), hsome, hnone]

def dbC8A : DB := { profiles := [{ dealer_id := "DEALER-0003", profile_email := "a@b.co" }] }

theorem request_reset_no_enumeration_witness :
    (postDealerRequestReset dbC8A [] (some "a@b.co") (List.replicate 32 1) 5).1 =
      (postDealerRequestReset { } [] (some "a@b.co") (List.replicate 32 2) 7).1 :=
  request_reset_no_enumeration dbC8A { } (some "a@b.co") (List.replicate 32 1)
    (List.replicate 32 2) 5 7 [] [] { dealer_id := "DEALER-0003", profile_email := "a@b.co" }
    (by decide) (by decide) (by decide)

/-! ## C3 -/

/-- C3 (amended): for the guarded auth-service revision, with the PBKDF2
PRF abstract (byte-valued, 32-byte output): the hash round-trips for every
passcode; verification of an altered passcode whose derived key differs is
false; and the four malformed-stored-value categories — wrong part count,
wrong prefix, non-numeric iteration count, wrong-length hash — all return
false without throwing.  (The earlier revision without the guards throws
on the last two categories; see the counterexample.) -/
theorem verifyPasscode_spec (F : String → List Nat → Nat → List Nat)
    (hF : ∀ p s i, ∀ x ∈ F p s i, x < 256)
    (hF32 : ∀ p s i, (F p s i).length = 32) :
    (∀ (p : String) (salt : List Nat), p ≠ "" → (∀ x ∈ salt, x < 256) →
      AuthService.verifyPasscode F p (AuthService.hashPasscode F salt p) = .ok true) ∧
    (∀ (p q : String) (salt : List Nat), (∀ x ∈ salt, x < 256) →
      F q salt 120000 ≠ F p salt 120000 →
      AuthService.verifyPasscode F q (AuthService.hashPasscode F salt p) = .ok false) ∧
    (∀ (p s : String), (jsSplitDollar s).length ≠ 4 →
      AuthService.verifyPasscode F p s = .ok false) ∧
    (∀ (p s p0 p1 p2 p3 : String), jsSplitDollar s = [p0, p1, p2, p3] → p0 ≠ "pbkdf2" →
      AuthService.verifyPasscode F p s = .ok false) ∧
    (∀ (p s p0 p1 p2 p3 : String), jsSplitDollar s = [p0, p1, p2, p3] →
      jsParseInt p1 = none → AuthService.verifyPasscode F p s = .ok false) ∧
    (∀ (p : String) (salt hash : List Nat), (∀ x ∈ salt, x < 256) → (∀ x ∈ hash, x < 256) →
      hash.length ≠ 32 →
      AuthService.verifyPasscode F p
        ("pbkdf2" ++ "$" ++ "120000" ++ "$" ++ b64Encode salt ++ "$" ++ b64Encode hash) =
        .ok false) :=
  ⟨fun p salt _ hs => verifyPasscode_roundtrip F hF p salt hs,
   fun p q salt hs hd => verifyPasscode_altered F hF hF32 p q salt hs hd,
   verifyPasscode_partCount F,
   verifyPasscode_badPrefix F,
   verifyPasscode_nanIterations F,
   fun p salt hash hs hh hl => verifyPasscode_wrongHashLen F hF32 p salt hash hs hh hl⟩

/-- A stand-in PRF for concrete evaluation: 32 bytes ending in the
passcode length. -/
def demoPBKDF2 (p : String) (salt : List Nat) (iterations : Nat) : List Nat :=
  List.replicate 31 0 ++ [p.length % 256]

theorem verifyPasscode_spec_witness :
    AuthService.verifyPasscode demoPBKDF2 "secret"
      (AuthService.hashPasscode demoPBKDF2 (List.replicate 16 7) "secret") = .ok true ∧
    AuthService.verifyPasscode demoPBKDF2 "1234567"
      (AuthService.hashPasscode demoPBKDF2 (List.replicate 16 7) "secret") = .ok false := by
  have hF : ∀ p s i, ∀ x ∈ demoPBKDF2 p s i, x < 256 := by
    intro p s i x hx
    unfold demoPBKDF2 at hx
    rcases List.mem_append.mp hx with h | h
    · have := List.eq_of_mem_replicate h
      omega
    · have := List.mem_singleton.mp h
      omega
  have hF32 : ∀ p s i, (demoPBKDF2 p s i).length = 32 := fun p s i => by
    simp [demoPBKDF2]
  have h := verifyPasscode_spec demoPBKDF2 hF hF32
  exact ⟨h.1 "secret" (List.replicate 16 7) (by decide) (by decide),
    h.2.1 "secret" "1234567" (List.replicate 16 7) (by decide) (by decide)⟩

/-- A constant 32-byte PRF; only the output length matters for the
counterexample (real PBKDF2-HMAC-SHA256 with a 32-byte key length behaves
identically here). -/
def constPBKDF2 (p : String) (salt : List Nat) (iterations : Nat) : List Nat :=
  List.replicate 32 0

/-- C3 (counterexample): the earlier auth-service revision (no length
guard) feeds the decoded stored hash straight into
`crypto.timingSafeEqual`; on a well-formed stored value whose hash part
decodes to 4 bytes instead of 32 it throws a `RangeError` instead of
returning false — so `verifyPasscode` is not throw-free on corrupted
stored values in that revision. -/
theorem verifyPasscode_noGuard_throws :
    AuthServiceV5.verifyPasscode constPBKDF2 "secret" "pbkdf2$120000$AAAA$AAAAAA" =
      .error "RangeError: Input buffers must have the same byte length" := by
  unfold AuthServiceV5.verifyPasscode
  rw [if_neg (by decide), show jsSplitDollar "pbkdf2$120000$AAAA$AAAAAA" =
    ["pbkdf2", "120000", "AAAA", "AAAAAA"] from by decide]
  rfl
